import Mathlib

/-!
Verification development for the DSRT vector math core
(`src/core/MathUtils.js`, `src/core/Vector2.js`, `src/core/Vector3.js`,
`src/core/Vector4.js`).

The JavaScript code is shallowly embedded:
* floating-point numbers become real numbers (`ℝ`); the quantization
  helpers of `MathUtils`, which only use field arithmetic and rounding,
  are embedded over `ℚ` so that they stay executable;
* a vector object becomes a record holding its components together with
  the mutation-tracking state that the observer contract talks about:
  the `isDirty` flag, whether an `onChange` observer function is
  currently attached (`hasObserver`), and how many times the observer
  has been invoked so far (`notified`);
* every mutating method becomes a function from the receiver state (and
  the method arguments) to the new state paired with a `JSRet` value
  recording what the JavaScript method returns (`this` or `undefined`);
* `throw` becomes `Except.error`.
-/

namespace DSRT

/-- What a JavaScript mutator returns: the receiver itself (`return this`)
or `undefined` (the value of a `void` call such as `#markDirty()`). -/
inductive JSRet
  | self
  | undef
deriving DecidableEq

/-! ## MathUtils (`src/core/MathUtils.js`)

`normalize(value, array)` and `denormalize(value, array)` dispatch on
`array.constructor`; the seven recognized typed-array constructors plus
the `default` branch of the `switch` are represented by `ArrayKind`
(`other` standing for any unrecognized constructor). -/

namespace MathUtils

/-- The constructors `normalize`/`denormalize` switch on; `other` is any
constructor that falls into the `default` branch. -/
inductive ArrayKind
  | float32
  | uint32
  | uint16
  | uint8
  | int32
  | int16
  | int8
  | other
deriving DecidableEq

/-- Error message of the `throw new Error` in the `default` branch. -/
def invalidTypeMsg : String := "Invalid type"

/-- `clamp(v,min,max) = Math.max(min, Math.min(max, v))`. -/
def clamp (v lo hi : ℝ) : ℝ := max lo (min hi v)

/-- `normalize(value, array)`: `switch(array.constructor) { case Float32Array:
return value; case Uint32Array: return Math.round(value*4294967295); ...
case Int8Array: return Math.round(value*127); default: throw }`.
`Math.round x = ⌊x + 1/2⌋`, which is the Mathlib `round`. -/
def normalize (value : ℚ) (kind : ArrayKind) : Except String ℚ :=
  match kind with
  | .float32 => .ok value
  | .uint32  => .ok (round (value * 4294967295) : ℤ)
  | .uint16  => .ok (round (value * 65535) : ℤ)
  | .uint8   => .ok (round (value * 255) : ℤ)
  | .int32   => .ok (round (value * 2147483647) : ℤ)
  | .int16   => .ok (round (value * 32767) : ℤ)
  | .int8    => .ok (round (value * 127) : ℤ)
  | .other   => .error invalidTypeMsg

/-- `denormalize(value, array)`: float passthrough, unsigned branches are
plain division, signed branches are `Math.max(value/factor, -1)`,
`default: throw`. -/
def denormalize (value : ℚ) (kind : ArrayKind) : Except String ℚ :=
  match kind with
  | .float32 => .ok value
  | .uint32  => .ok (value / 4294967295)
  | .uint16  => .ok (value / 65535)
  | .uint8   => .ok (value / 255)
  | .int32   => .ok (max (value / 2147483647) (-1))
  | .int16   => .ok (max (value / 32767) (-1))
  | .int8    => .ok (max (value / 127) (-1))
  | .other   => .error invalidTypeMsg

end MathUtils

/-! ## Vector objects

Each vector instance is a record of its components plus the
mutation-tracking state of the observer contract.  `notified` counts how
many times `this.onChange(this)` has executed on this instance;
`hasObserver` models the `typeof this.onChange` function check.  No method
ever changes `hasObserver` (only external assignment to the `onChange`
slot does, which is not a method of the class). -/

noncomputable section

/-- JavaScript `Math.round x = ⌊x + 1/2⌋`, which is the Mathlib `round`. -/
def jsRound (x : ℝ) : ℤ := round x

/-- JavaScript `Math.trunc`: rounds toward zero. -/
def jsTrunc (x : ℝ) : ℝ := if 0 ≤ x then (⌊x⌋ : ℝ) else (⌈x⌉ : ℝ)

/-- A quaternion collaborator: exposes `x, y, z, w` (spec §6). -/
structure Quaternion where
  x : ℝ
  y : ℝ
  z : ℝ
  w : ℝ

/-- State of a `Vector3` instance (`src/core/Vector3.js`). -/
structure Vector3 where
  x : ℝ
  y : ℝ
  z : ℝ
  isDirty : Bool
  hasObserver : Bool
  notified : ℕ

namespace Vector3

/-- `new Vector3(x, y, z)`: `isDirty = false`, `onChange = null`. -/
def create (x y z : ℝ) : Vector3 := ⟨x, y, z, false, false, 0⟩

/-- How many observer invocations one `#markDirty()` performs:
1 when an observer is attached, 0 otherwise. -/
def notifyStep (v : Vector3) : ℕ := if v.hasObserver then 1 else 0

/-- The private mark-dirty hook: `this.isDirty = true;` followed by
`this.onChange(this)` when the slot holds a function — the observer,
when attached, runs inline with the vector itself as sole argument. -/
def markDirty (v : Vector3) : Vector3 :=
  { v with isDirty := true, notified := v.notified + v.notifyStep }

/-- `lengthSq()`. -/
def lengthSq (v : Vector3) : ℝ := v.x * v.x + v.y * v.y + v.z * v.z

/-- `length() = Math.sqrt(this.lengthSq())`. -/
def length (v : Vector3) : ℝ := Real.sqrt v.lengthSq

/-- `manhattanLength()`. -/
def manhattanLength (v : Vector3) : ℝ := |v.x| + |v.y| + |v.z|

/-- `dot(v)`. -/
def dot (v t : Vector3) : ℝ := v.x * t.x + v.y * t.y + v.z * t.z

/-- `distanceToSquared(v)`. -/
def distanceToSquared (v t : Vector3) : ℝ :=
  (v.x - t.x) * (v.x - t.x) + (v.y - t.y) * (v.y - t.y) + (v.z - t.z) * (v.z - t.z)

/-- `distanceTo(v)`. -/
def distanceTo (v t : Vector3) : ℝ := Real.sqrt (v.distanceToSquared t)

/-- `manhattanDistanceTo(v)`. -/
def manhattanDistanceTo (v t : Vector3) : ℝ := |v.x - t.x| + |v.y - t.y| + |v.z - t.z|

/-- `equals(v)`: exact comparison `v.x === this.x && v.y === this.y && v.z === this.z`. -/
def equals (v t : Vector3) : Bool := decide (t.x = v.x ∧ t.y = v.y ∧ t.z = v.z)

/-- `set(x, y, z = this.z)`: omitting `z` (`none`) preserves the current `z`. -/
def set (v : Vector3) (x y : ℝ) (z : Option ℝ) : Vector3 × JSRet :=
  (({ v with x := x, y := y, z := z.getD v.z }).markDirty, .self)

/-- `setScalar(scalar)`. -/
def setScalar (v : Vector3) (s : ℝ) : Vector3 × JSRet :=
  (({ v with x := s, y := s, z := s }).markDirty, .self)

/-- `setX(x)`. -/
def setX (v : Vector3) (x : ℝ) : Vector3 × JSRet :=
  (({ v with x := x }).markDirty, .self)

/-- `setY(y)`. -/
def setY (v : Vector3) (y : ℝ) : Vector3 × JSRet :=
  (({ v with y := y }).markDirty, .self)

/-- `setZ(z)`. -/
def setZ (v : Vector3) (z : ℝ) : Vector3 × JSRet :=
  (({ v with z := z }).markDirty, .self)

/-- Error message of the `setComponent`/`getComponent` range check. -/
def indexOutOfRangeMsg : String := "index out of range"

/-- `setComponent(index, value)`: `switch` on the index, `default` throws
before any mutation; otherwise assign, mark dirty, return `this`. -/
def setComponent (v : Vector3) (index : ℕ) (value : ℝ) :
    Except String (Vector3 × JSRet) :=
  if index = 0 then .ok (({ v with x := value }).markDirty, .self)
  else if index = 1 then .ok (({ v with y := value }).markDirty, .self)
  else if index = 2 then .ok (({ v with z := value }).markDirty, .self)
  else .error indexOutOfRangeMsg

/-- `copy(v)`. -/
def copy (v s : Vector3) : Vector3 × JSRet :=
  (({ v with x := s.x, y := s.y, z := s.z }).markDirty, .self)

/-- `add(v)`. -/
def add (v t : Vector3) : Vector3 × JSRet :=
  (({ v with x := v.x + t.x, y := v.y + t.y, z := v.z + t.z }).markDirty, .self)

/-- `addScalar(s)`. -/
def addScalar (v : Vector3) (s : ℝ) : Vector3 × JSRet :=
  (({ v with x := v.x + s, y := v.y + s, z := v.z + s }).markDirty, .self)

/-- `addVectors(a, b)`. -/
def addVectors (v a b : Vector3) : Vector3 × JSRet :=
  (({ v with x := a.x + b.x, y := a.y + b.y, z := a.z + b.z }).markDirty, .self)

/-- `addScaledVector(v, s)`. -/
def addScaledVector (v t : Vector3) (s : ℝ) : Vector3 × JSRet :=
  (({ v with x := v.x + t.x * s, y := v.y + t.y * s, z := v.z + t.z * s }).markDirty, .self)

/-- `sub(v)`. -/
def sub (v t : Vector3) : Vector3 × JSRet :=
  (({ v with x := v.x - t.x, y := v.y - t.y, z := v.z - t.z }).markDirty, .self)

/-- `subScalar(s)`. -/
def subScalar (v : Vector3) (s : ℝ) : Vector3 × JSRet :=
  (({ v with x := v.x - s, y := v.y - s, z := v.z - s }).markDirty, .self)

/-- `subVectors(a, b)`. -/
def subVectors (v a b : Vector3) : Vector3 × JSRet :=
  (({ v with x := a.x - b.x, y := a.y - b.y, z := a.z - b.z }).markDirty, .self)

/-- `multiply(v)`. -/
def multiply (v t : Vector3) : Vector3 × JSRet :=
  (({ v with x := v.x * t.x, y := v.y * t.y, z := v.z * t.z }).markDirty, .self)

/-- `multiplyScalar(scalar)`. -/
def multiplyScalar (v : Vector3) (s : ℝ) : Vector3 × JSRet :=
  (({ v with x := v.x * s, y := v.y * s, z := v.z * s }).markDirty, .self)

/-- `multiplyVectors(a, b)`. -/
def multiplyVectors (v a b : Vector3) : Vector3 × JSRet :=
  (({ v with x := a.x * b.x, y := a.y * b.y, z := a.z * b.z }).markDirty, .self)

/-- `divide(v)`. -/
def divide (v t : Vector3) : Vector3 × JSRet :=
  (({ v with x := v.x / t.x, y := v.y / t.y, z := v.z / t.z }).markDirty, .self)

/-- `divideScalar(scalar) = this.multiplyScalar(1 / scalar)`. -/
def divideScalar (v : Vector3) (s : ℝ) : Vector3 × JSRet :=
  v.multiplyScalar (1 / s)

/-- `applyQuaternion(q)`: optimized double-cross-product rotation. -/
def applyQuaternion (v : Vector3) (q : Quaternion) : Vector3 × JSRet :=
  let tx := 2 * (q.y * v.z - q.z * v.y)
  let ty := 2 * (q.z * v.x - q.x * v.z)
  let tz := 2 * (q.x * v.y - q.y * v.x)
  (({ v with
      x := v.x + q.w * tx + q.y * tz - q.z * ty,
      y := v.y + q.w * ty + q.z * tx - q.x * tz,
      z := v.z + q.w * tz + q.x * ty - q.y * tx }).markDirty, .self)

/-- `applyMatrix3(m)`: `e = m.elements` is a flat column-major sequence. -/
def applyMatrix3 (v : Vector3) (e : ℕ → ℝ) : Vector3 × JSRet :=
  (({ v with
      x := e 0 * v.x + e 3 * v.y + e 6 * v.z,
      y := e 1 * v.x + e 4 * v.y + e 7 * v.z,
      z := e 2 * v.x + e 5 * v.y + e 8 * v.z }).markDirty, .self)

/-- JavaScript `a || b` for the numbers used here: `b` if `a` is `0`, else `a`. -/
def jsOr (a b : ℝ) : ℝ := if a = 0 then b else a

/-- `normalize() = this.divideScalar(this.length() || 1)`. -/
def normalize (v : Vector3) : Vector3 × JSRet :=
  v.divideScalar (jsOr v.length 1)

/-- `applyNormalMatrix(m) = this.applyMatrix3(m).normalize()`. -/
def applyNormalMatrix (v : Vector3) (e : ℕ → ℝ) : Vector3 × JSRet :=
  ((v.applyMatrix3 e).1).normalize

/-- `applyMatrix4(m)`: affine transform followed by the perspective
divide with `w = 1 / (e[3]x + e[7]y + e[11]z + e[15])`. -/
def applyMatrix4 (v : Vector3) (e : ℕ → ℝ) : Vector3 × JSRet :=
  let w := 1 / (e 3 * v.x + e 7 * v.y + e 11 * v.z + e 15)
  (({ v with
      x := (e 0 * v.x + e 4 * v.y + e 8 * v.z + e 12) * w,
      y := (e 1 * v.x + e 5 * v.y + e 9 * v.z + e 13) * w,
      z := (e 2 * v.x + e 6 * v.y + e 10 * v.z + e 14) * w }).markDirty, .self)

/-- `transformDirection(m)`: upper-left 3×3 block, then `normalize()`
(the assignments themselves do not call `#markDirty`). -/
def transformDirection (v : Vector3) (e : ℕ → ℝ) : Vector3 × JSRet :=
  ({ v with
      x := e 0 * v.x + e 4 * v.y + e 8 * v.z,
      y := e 1 * v.x + e 5 * v.y + e 9 * v.z,
      z := e 2 * v.x + e 6 * v.y + e 10 * v.z } : Vector3).normalize

/-- `project(camera)`: two sequential `applyMatrix4` calls with the
camera fields `matrixWorldInverse` then `projectionMatrix`. -/
def project (v : Vector3) (matrixWorldInverse projectionMatrix : ℕ → ℝ) :
    Vector3 × JSRet :=
  ((v.applyMatrix4 matrixWorldInverse).1).applyMatrix4 projectionMatrix

/-- `unproject(camera)`: `projectionMatrixInverse` then `matrixWorld`. -/
def unproject (v : Vector3) (projectionMatrixInverse matrixWorld : ℕ → ℝ) :
    Vector3 × JSRet :=
  ((v.applyMatrix4 projectionMatrixInverse).1).applyMatrix4 matrixWorld

/-- `setLength(length) = this.normalize().multiplyScalar(length)`. -/
def setLength (v : Vector3) (l : ℝ) : Vector3 × JSRet :=
  ((v.normalize).1).multiplyScalar l

/-- `lerp(v, alpha)`. -/
def lerp (v t : Vector3) (alpha : ℝ) : Vector3 × JSRet :=
  (({ v with
      x := v.x + (t.x - v.x) * alpha,
      y := v.y + (t.y - v.y) * alpha,
      z := v.z + (t.z - v.z) * alpha }).markDirty, .self)

/-- `lerpVectors(v1, v2, alpha)`. -/
def lerpVectors (v v1 v2 : Vector3) (alpha : ℝ) : Vector3 × JSRet :=
  (({ v with
      x := v1.x + (v2.x - v1.x) * alpha,
      y := v1.y + (v2.y - v1.y) * alpha,
      z := v1.z + (v2.z - v1.z) * alpha }).markDirty, .self)

/-- `clamp(min, max)` with vector bounds. -/
def clamp (v mn mx : Vector3) : Vector3 × JSRet :=
  (({ v with
      x := MathUtils.clamp v.x mn.x mx.x,
      y := MathUtils.clamp v.y mn.y mx.y,
      z := MathUtils.clamp v.z mn.z mx.z }).markDirty, .self)

/-- `clampScalar(minVal, maxVal)`. -/
def clampScalar (v : Vector3) (lo hi : ℝ) : Vector3 × JSRet :=
  (({ v with
      x := MathUtils.clamp v.x lo hi,
      y := MathUtils.clamp v.y lo hi,
      z := MathUtils.clamp v.z lo hi }).markDirty, .self)

/-- `clampLength(min, max) = this.divideScalar(len || 1).multiplyScalar(clamp(len, min, max))`. -/
def clampLength (v : Vector3) (lo hi : ℝ) : Vector3 × JSRet :=
  let len := v.length
  ((v.divideScalar (jsOr len 1)).1).multiplyScalar (MathUtils.clamp len lo hi)

/-- `floor()`. -/
def floor (v : Vector3) : Vector3 × JSRet :=
  (({ v with x := (⌊v.x⌋ : ℝ), y := (⌊v.y⌋ : ℝ), z := (⌊v.z⌋ : ℝ) }).markDirty, .self)

/-- `ceil()`. -/
def ceil (v : Vector3) : Vector3 × JSRet :=
  (({ v with x := (⌈v.x⌉ : ℝ), y := (⌈v.y⌉ : ℝ), z := (⌈v.z⌉ : ℝ) }).markDirty, .self)

/-- `round()`: per-component `Math.round`. -/
def round (v : Vector3) : Vector3 × JSRet :=
  (({ v with
      x := (jsRound v.x : ℝ),
      y := (jsRound v.y : ℝ),
      z := (jsRound v.z : ℝ) }).markDirty, .self)

/-- `roundToZero()`: per-component `Math.trunc`. -/
def roundToZero (v : Vector3) : Vector3 × JSRet :=
  (({ v with x := jsTrunc v.x, y := jsTrunc v.y, z := jsTrunc v.z }).markDirty, .self)

/-- `negate()`. -/
def negate (v : Vector3) : Vector3 × JSRet :=
  (({ v with x := -v.x, y := -v.y, z := -v.z }).markDirty, .self)

/-- `crossVectors(a, b)`. -/
def crossVectors (v a b : Vector3) : Vector3 × JSRet :=
  (({ v with
      x := a.y * b.z - a.z * b.y,
      y := a.z * b.x - a.x * b.z,
      z := a.x * b.y - a.y * b.x }).markDirty, .self)

/-- `cross(v) = this.crossVectors(this, v)`. -/
def cross (v t : Vector3) : Vector3 × JSRet := v.crossVectors v t

/-- `projectOnVector(v)`: zero-length target short-circuits to
`this.set(0, 0, 0)`; otherwise `this.copy(v).multiplyScalar(scalar)`. -/
def projectOnVector (v t : Vector3) : Vector3 × JSRet :=
  let denom := t.lengthSq
  if denom = 0 then v.set 0 0 (some 0)
  else ((v.copy t).1).multiplyScalar (v.dot t / denom)

/-- Module-level scratch `const _vector = new Vector3();` used by
`projectOnPlane`/`reflect`.  Its components are always overwritten by
`copy` before being read, and its own dirty/observer state is never
observed, so the fresh instance stands for it at every call. -/
def scratch : Vector3 := create 0 0 0

/-- `projectOnPlane(planeNormal)`:
`_vector.copy(this).projectOnVector(planeNormal); return
this.sub(_vector).#markDirty();` — note the explicit second `#markDirty`
and that the method returns the result of `#markDirty()` (undefined). -/
def projectOnPlane (v planeNormal : Vector3) : Vector3 × JSRet :=
  let sc := (((scratch.copy v).1).projectOnVector planeNormal).1
  (((v.sub sc).1).markDirty, .undef)

/-- `reflect(normal)`: `return
this.sub(_vector.copy(normal).multiplyScalar(2 * this.dot(normal))).#markDirty();`. -/
def reflect (v normal : Vector3) : Vector3 × JSRet :=
  let scale := 2 * v.dot normal
  let sc := (((scratch.copy normal).1).multiplyScalar scale).1
  (((v.sub sc).1).markDirty, .undef)

/-- `setFromSphericalCoords(radius, phi, theta)`. -/
def setFromSphericalCoords (v : Vector3) (radius phi theta : ℝ) : Vector3 × JSRet :=
  let sinPhiRadius := Real.sin phi * radius
  (({ v with
      x := sinPhiRadius * Real.sin theta,
      y := Real.cos phi * radius,
      z := sinPhiRadius * Real.cos theta }).markDirty, .self)

/-- `setFromSpherical(s)` delegates to `setFromSphericalCoords`. -/
def setFromSpherical (v : Vector3) (radius phi theta : ℝ) : Vector3 × JSRet :=
  v.setFromSphericalCoords radius phi theta

/-- `setFromCylindricalCoords(radius, theta, y)`. -/
def setFromCylindricalCoords (v : Vector3) (radius theta y : ℝ) : Vector3 × JSRet :=
  (({ v with
      x := radius * Real.sin theta,
      y := y,
      z := radius * Real.cos theta }).markDirty, .self)

/-- `setFromCylindrical(c)` delegates to `setFromCylindricalCoords`. -/
def setFromCylindrical (v : Vector3) (radius theta y : ℝ) : Vector3 × JSRet :=
  v.setFromCylindricalCoords radius theta y

/-- `setFromMatrixPosition(m)`: reads elements 12, 13, 14. -/
def setFromMatrixPosition (v : Vector3) (e : ℕ → ℝ) : Vector3 × JSRet :=
  (({ v with x := e 12, y := e 13, z := e 14 }).markDirty, .self)

/-- `fromArray(array, offset)`. -/
def fromArray (v : Vector3) (a : ℕ → ℝ) (offset : ℕ) : Vector3 × JSRet :=
  (({ v with x := a offset, y := a (offset + 1), z := a (offset + 2) }).markDirty, .self)

/-- `setFromMatrixColumn(m, index) = this.fromArray(m.elements, index * 4)`. -/
def setFromMatrixColumn (v : Vector3) (e : ℕ → ℝ) (index : ℕ) : Vector3 × JSRet :=
  v.fromArray e (index * 4)

/-- `setFromMatrix3Column(m, index) = this.fromArray(m.elements, index * 3)`. -/
def setFromMatrix3Column (v : Vector3) (e : ℕ → ℝ) (index : ℕ) : Vector3 × JSRet :=
  v.fromArray e (index * 3)

/-- `setFromMatrixScale(m)`: each line calls `setFromMatrixColumn` (which
overwrites all three components and marks dirty), takes the length of the
freshly loaded column, and then assigns that length to one component;
a final `#markDirty` follows. -/
def setFromMatrixScale (v : Vector3) (e : ℕ → ℝ) : Vector3 × JSRet :=
  let s1 := (v.setFromMatrixColumn e 0).1
  let s1 := { s1 with x := s1.length }
  let s2 := (s1.setFromMatrixColumn e 1).1
  let s2 := { s2 with y := s2.length }
  let s3 := (s2.setFromMatrixColumn e 2).1
  let s3 := { s3 with z := s3.length }
  (s3.markDirty, .self)

/-- `setFromEuler(e)`: reads `e._x, e._y, e._z`. -/
def setFromEuler (v : Vector3) (ex ey ez : ℝ) : Vector3 × JSRet :=
  (({ v with x := ex, y := ey, z := ez }).markDirty, .self)

/-- `setFromColor(c)`: reads `c.r, c.g, c.b`. -/
def setFromColor (v : Vector3) (r g b : ℝ) : Vector3 × JSRet :=
  (({ v with x := r, y := g, z := b }).markDirty, .self)

/-- `toArray(array, offset)`: writes the three components into the flat
sequence and returns the sequence; no `#markDirty`. -/
def toArray (v : Vector3) (a : ℕ → ℝ) (offset : ℕ) : ℕ → ℝ :=
  fun i =>
    if i = offset then v.x
    else if i = offset + 1 then v.y
    else if i = offset + 2 then v.z
    else a i

/-- `fromBufferAttribute(attribute, index)`: reads the collaborator
accessors `getX/getY/getZ`. -/
def fromBufferAttribute (v : Vector3) (gX gY gZ : ℕ → ℝ) (index : ℕ) : Vector3 × JSRet :=
  (({ v with x := gX index, y := gY index, z := gZ index }).markDirty, .self)

/-- `random()`: the three draws of `Math.random()` are passed in. -/
def random (v : Vector3) (r1 r2 r3 : ℝ) : Vector3 × JSRet :=
  (({ v with x := r1, y := r2, z := r3 }).markDirty, .self)

/-- `randomDirection()`: cylindrical-equal-area unit-sphere draw; the two
`Math.random()` draws are passed in. -/
def randomDirection (v : Vector3) (r1 r2 : ℝ) : Vector3 × JSRet :=
  let theta := r1 * Real.pi * 2
  let u := r2 * 2 - 1
  let c := Real.sqrt (1 - u * u)
  (({ v with x := c * Real.cos theta, y := u, z := c * Real.sin theta }).markDirty, .self)

/-- Method form of `lengthSq()`: the body only reads fields. -/
def lengthSqM (v : Vector3) : Vector3 × ℝ := (v, v.lengthSq)

/-- Method form of `length()`. -/
def lengthM (v : Vector3) : Vector3 × ℝ := (v, v.length)

/-- Method form of `manhattanLength()`. -/
def manhattanLengthM (v : Vector3) : Vector3 × ℝ := (v, v.manhattanLength)

/-- Method form of `dot(v)`. -/
def dotM (v t : Vector3) : Vector3 × ℝ := (v, v.dot t)

/-- Method form of `equals(v)`. -/
def equalsM (v t : Vector3) : Vector3 × Bool := (v, v.equals t)

/-- Method form of `distanceTo(v)`. -/
def distanceToM (v t : Vector3) : Vector3 × ℝ := (v, v.distanceTo t)

/-- Method form of `distanceToSquared(v)`. -/
def distanceToSquaredM (v t : Vector3) : Vector3 × ℝ := (v, v.distanceToSquared t)

/-- Method form of `manhattanDistanceTo(v)`. -/
def manhattanDistanceToM (v t : Vector3) : Vector3 × ℝ := (v, v.manhattanDistanceTo t)

/-- The `[Symbol.iterator]` generator: yields `x`, `y`, `z` in order,
reading only. -/
def componentsM (v : Vector3) : Vector3 × List ℝ := (v, [v.x, v.y, v.z])

end Vector3

/-- State of a `Vector4` instance (`src/core/Vector4.js`). -/
structure Vector4 where
  x : ℝ
  y : ℝ
  z : ℝ
  w : ℝ
  isDirty : Bool
  hasObserver : Bool
  notified : ℕ

namespace Vector4

/-- `new Vector4(x, y, z, w = 1)`: `isDirty = false`, `onChange = null`. -/
def create (x y z w : ℝ) : Vector4 := ⟨x, y, z, w, false, false, 0⟩

/-- Observer invocations performed by one `#markDirty()`. -/
def notifyStep (v : Vector4) : ℕ := if v.hasObserver then 1 else 0

/-- The mark-dirty hook of Vector4, identical to the Vector3 one. -/
def markDirty (v : Vector4) : Vector4 :=
  { v with isDirty := true, notified := v.notified + v.notifyStep }

/-- `lengthSq()`. -/
def lengthSq (v : Vector4) : ℝ := v.x * v.x + v.y * v.y + v.z * v.z + v.w * v.w

/-- `length() = Math.sqrt(this.lengthSq())`. -/
def length (v : Vector4) : ℝ := Real.sqrt v.lengthSq

/-- `manhattanLength()`. -/
def manhattanLength (v : Vector4) : ℝ := |v.x| + |v.y| + |v.z| + |v.w|

/-- `dot(v)`. -/
def dot (v t : Vector4) : ℝ := v.x * t.x + v.y * t.y + v.z * t.z + v.w * t.w

/-- `equals(v)`: exact comparison of all four components. -/
def equals (v t : Vector4) : Bool :=
  decide (t.x = v.x ∧ t.y = v.y ∧ t.z = v.z ∧ t.w = v.w)

/-- `set(x, y, z, w)`. -/
def set (v : Vector4) (x y z w : ℝ) : Vector4 × JSRet :=
  (({ v with x := x, y := y, z := z, w := w }).markDirty, .self)

/-- `setScalar(scalar)`. -/
def setScalar (v : Vector4) (s : ℝ) : Vector4 × JSRet :=
  (({ v with x := s, y := s, z := s, w := s }).markDirty, .self)

/-- `setX(x)`. -/
def setX (v : Vector4) (x : ℝ) : Vector4 × JSRet :=
  (({ v with x := x }).markDirty, .self)

/-- `setY(y)`. -/
def setY (v : Vector4) (y : ℝ) : Vector4 × JSRet :=
  (({ v with y := y }).markDirty, .self)

/-- `setZ(z)`. -/
def setZ (v : Vector4) (z : ℝ) : Vector4 × JSRet :=
  (({ v with z := z }).markDirty, .self)

/-- `setW(w)`. -/
def setW (v : Vector4) (w : ℝ) : Vector4 × JSRet :=
  (({ v with w := w }).markDirty, .self)

/-- `setComponent(index, value)`: `default` throws before any mutation. -/
def setComponent (v : Vector4) (index : ℕ) (value : ℝ) :
    Except String (Vector4 × JSRet) :=
  if index = 0 then .ok (({ v with x := value }).markDirty, .self)
  else if index = 1 then .ok (({ v with y := value }).markDirty, .self)
  else if index = 2 then .ok (({ v with z := value }).markDirty, .self)
  else if index = 3 then .ok (({ v with w := value }).markDirty, .self)
  else .error Vector3.indexOutOfRangeMsg

/-- `copy(v)`: `this.w = v.w !== undefined ? v.w : 1` — a missing `w` on
the source defaults to 1. -/
def copy (v : Vector4) (sx sy sz : ℝ) (sw : Option ℝ) : Vector4 × JSRet :=
  (({ v with x := sx, y := sy, z := sz, w := sw.getD 1 }).markDirty, .self)

/-- `add(v)`. -/
def add (v t : Vector4) : Vector4 × JSRet :=
  (({ v with x := v.x + t.x, y := v.y + t.y, z := v.z + t.z, w := v.w + t.w }).markDirty, .self)

/-- `addScalar(s)`. -/
def addScalar (v : Vector4) (s : ℝ) : Vector4 × JSRet :=
  (({ v with x := v.x + s, y := v.y + s, z := v.z + s, w := v.w + s }).markDirty, .self)

/-- `addVectors(a, b)`. -/
def addVectors (v a b : Vector4) : Vector4 × JSRet :=
  (({ v with x := a.x + b.x, y := a.y + b.y, z := a.z + b.z, w := a.w + b.w }).markDirty, .self)

/-- `addScaledVector(v, s)`. -/
def addScaledVector (v t : Vector4) (s : ℝ) : Vector4 × JSRet :=
  (({ v with x := v.x + t.x * s, y := v.y + t.y * s, z := v.z + t.z * s, w := v.w + t.w * s }).markDirty, .self)

/-- `sub(v)`. -/
def sub (v t : Vector4) : Vector4 × JSRet :=
  (({ v with x := v.x - t.x, y := v.y - t.y, z := v.z - t.z, w := v.w - t.w }).markDirty, .self)

/-- `subScalar(s)`. -/
def subScalar (v : Vector4) (s : ℝ) : Vector4 × JSRet :=
  (({ v with x := v.x - s, y := v.y - s, z := v.z - s, w := v.w - s }).markDirty, .self)

/-- `subVectors(a, b)`. -/
def subVectors (v a b : Vector4) : Vector4 × JSRet :=
  (({ v with x := a.x - b.x, y := a.y - b.y, z := a.z - b.z, w := a.w - b.w }).markDirty, .self)

/-- `multiply(v)`. -/
def multiply (v t : Vector4) : Vector4 × JSRet :=
  (({ v with x := v.x * t.x, y := v.y * t.y, z := v.z * t.z, w := v.w * t.w }).markDirty, .self)

/-- `multiplyScalar(scalar)`. -/
def multiplyScalar (v : Vector4) (s : ℝ) : Vector4 × JSRet :=
  (({ v with x := v.x * s, y := v.y * s, z := v.z * s, w := v.w * s }).markDirty, .self)

/-- `divide(v)`. -/
def divide (v t : Vector4) : Vector4 × JSRet :=
  (({ v with x := v.x / t.x, y := v.y / t.y, z := v.z / t.z, w := v.w / t.w }).markDirty, .self)

/-- `divideScalar(scalar) = this.multiplyScalar(1 / scalar)`. -/
def divideScalar (v : Vector4) (s : ℝ) : Vector4 × JSRet :=
  v.multiplyScalar (1 / s)

/-- `applyMatrix4(m)`: full homogeneous 4×4 multiplication, no
perspective divide (unlike the Vector3 version). -/
def applyMatrix4 (v : Vector4) (e : ℕ → ℝ) : Vector4 × JSRet :=
  (({ v with
      x := e 0 * v.x + e 4 * v.y + e 8 * v.z + e 12 * v.w,
      y := e 1 * v.x + e 5 * v.y + e 9 * v.z + e 13 * v.w,
      z := e 2 * v.x + e 6 * v.y + e 10 * v.z + e 14 * v.w,
      w := e 3 * v.x + e 7 * v.y + e 11 * v.z + e 15 * v.w }).markDirty, .self)

/-- `setAxisAngleFromQuaternion(q)`: `this.w = 2 * Math.acos(q.w)`;
`s = Math.sqrt(1 - q.w * q.w)`; if `s < 0.0001` the axis falls back to
`(1, 0, 0)`, otherwise it is `(q.x/s, q.y/s, q.z/s)`. -/
def setAxisAngleFromQuaternion (v : Vector4) (q : Quaternion) : Vector4 × JSRet :=
  let w := 2 * Real.arccos q.w
  let s := Real.sqrt (1 - q.w * q.w)
  let v1 :=
    if s < 0.0001 then { v with w := w, x := 1, y := 0, z := 0 }
    else { v with w := w, x := q.x / s, y := q.y / s, z := q.z / s }
  (v1.markDirty, .self)

/-- `setAxisAngleFromRotationMatrix(m)`: near-symmetric test with
`epsilon = 0.01` first; inside it, the identity test with
`epsilon2 = 0.1` on the off-diagonal sums and the trace; otherwise the
180°-rotation branch picks the dominant diagonal term; outside the
symmetric branch the axis comes from the skew-symmetric part with the
skew magnitude `s` guarded against near-zero by substituting 1, and the
angle is `acos((trace - 1) / 2)`.  The two symmetric branches call
`this.set(...)` (which marks dirty) and then `#markDirty()` again. -/
def setAxisAngleFromRotationMatrix (v : Vector4) (te : ℕ → ℝ) : Vector4 × JSRet :=
  let m11 := te 0; let m12 := te 4; let m13 := te 8
  let m21 := te 1; let m22 := te 5; let m23 := te 9
  let m31 := te 2; let m32 := te 6; let m33 := te 10
  if |m12 - m21| < 0.01 ∧ |m13 - m31| < 0.01 ∧ |m23 - m32| < 0.01 then
    if |m12 + m21| < 0.1 ∧ |m13 + m31| < 0.1 ∧ |m23 + m32| < 0.1 ∧
        |m11 + m22 + m33 - 3| < 0.1 then
      let v1 := (v.set 1 0 0 0).1
      (v1.markDirty, .self)
    else
      let xx := (m11 + 1) / 2
      let yy := (m22 + 1) / 2
      let zz := (m33 + 1) / 2
      let xy := (m12 + m21) / 4
      let xz := (m13 + m31) / 4
      let yz := (m23 + m32) / 4
      let p : ℝ × ℝ × ℝ :=
        if xx > yy ∧ xx > zz then
          ⟨Real.sqrt xx, xy / Real.sqrt xx, xz / Real.sqrt xx⟩
        else if yy > zz then
          ⟨xy / Real.sqrt yy, Real.sqrt yy, yz / Real.sqrt yy⟩
        else
          ⟨xz / Real.sqrt zz, yz / Real.sqrt zz, Real.sqrt zz⟩
      let v1 := (v.set p.1 p.2.1 p.2.2 Real.pi).1
      (v1.markDirty, .self)
  else
    let s0 := Real.sqrt ((m32 - m23) ^ 2 + (m13 - m31) ^ 2 + (m21 - m12) ^ 2)
    let s := if |s0| < 0.001 then 1 else s0
    (({ v with
        x := (m32 - m23) / s,
        y := (m13 - m31) / s,
        z := (m21 - m12) / s,
        w := Real.arccos ((m11 + m22 + m33 - 1) / 2) }).markDirty, .self)

/-- `normalize() = this.divideScalar(this.length() || 1)`. -/
def normalize (v : Vector4) : Vector4 × JSRet :=
  v.divideScalar (Vector3.jsOr v.length 1)

/-- `setLength(length) = this.normalize().multiplyScalar(length)`. -/
def setLength (v : Vector4) (l : ℝ) : Vector4 × JSRet :=
  ((v.normalize).1).multiplyScalar l

/-- `lerp(v, alpha)`. -/
def lerp (v t : Vector4) (alpha : ℝ) : Vector4 × JSRet :=
  (({ v with
      x := v.x + (t.x - v.x) * alpha,
      y := v.y + (t.y - v.y) * alpha,
      z := v.z + (t.z - v.z) * alpha,
      w := v.w + (t.w - v.w) * alpha }).markDirty, .self)

/-- `lerpVectors(v1, v2, alpha)`. -/
def lerpVectors (v v1 v2 : Vector4) (alpha : ℝ) : Vector4 × JSRet :=
  (({ v with
      x := v1.x + (v2.x - v1.x) * alpha,
      y := v1.y + (v2.y - v1.y) * alpha,
      z := v1.z + (v2.z - v1.z) * alpha,
      w := v1.w + (v2.w - v1.w) * alpha }).markDirty, .self)

/-- `clamp(min, max)` with vector bounds. -/
def clamp (v mn mx : Vector4) : Vector4 × JSRet :=
  (({ v with
      x := MathUtils.clamp v.x mn.x mx.x,
      y := MathUtils.clamp v.y mn.y mx.y,
      z := MathUtils.clamp v.z mn.z mx.z,
      w := MathUtils.clamp v.w mn.w mx.w }).markDirty, .self)

/-- `clampScalar(minVal, maxVal)`. -/
def clampScalar (v : Vector4) (lo hi : ℝ) : Vector4 × JSRet :=
  (({ v with
      x := MathUtils.clamp v.x lo hi,
      y := MathUtils.clamp v.y lo hi,
      z := MathUtils.clamp v.z lo hi,
      w := MathUtils.clamp v.w lo hi }).markDirty, .self)

/-- `clampLength(min, max)`. -/
def clampLength (v : Vector4) (lo hi : ℝ) : Vector4 × JSRet :=
  let len := v.length
  ((v.divideScalar (Vector3.jsOr len 1)).1).multiplyScalar (MathUtils.clamp len lo hi)

/-- `floor()`. -/
def floor (v : Vector4) : Vector4 × JSRet :=
  (({ v with x := (⌊v.x⌋ : ℝ), y := (⌊v.y⌋ : ℝ), z := (⌊v.z⌋ : ℝ), w := (⌊v.w⌋ : ℝ) }).markDirty, .self)

/-- `ceil()`. -/
def ceil (v : Vector4) : Vector4 × JSRet :=
  (({ v with x := (⌈v.x⌉ : ℝ), y := (⌈v.y⌉ : ℝ), z := (⌈v.z⌉ : ℝ), w := (⌈v.w⌉ : ℝ) }).markDirty, .self)

/-- `round()`. -/
def round (v : Vector4) : Vector4 × JSRet :=
  (({ v with
      x := (jsRound v.x : ℝ),
      y := (jsRound v.y : ℝ),
      z := (jsRound v.z : ℝ),
      w := (jsRound v.w : ℝ) }).markDirty, .self)

/-- `roundToZero()`. -/
def roundToZero (v : Vector4) : Vector4 × JSRet :=
  (({ v with x := jsTrunc v.x, y := jsTrunc v.y, z := jsTrunc v.z, w := jsTrunc v.w }).markDirty, .self)

/-- `negate()`. -/
def negate (v : Vector4) : Vector4 × JSRet :=
  (({ v with x := -v.x, y := -v.y, z := -v.z, w := -v.w }).markDirty, .self)

/-- `fromArray(array, offset)`. -/
def fromArray (v : Vector4) (a : ℕ → ℝ) (offset : ℕ) : Vector4 × JSRet :=
  (({ v with
      x := a offset,
      y := a (offset + 1),
      z := a (offset + 2),
      w := a (offset + 3) }).markDirty, .self)

/-- `toArray(array, offset)`: writes the four components, returns the
sequence, no `#markDirty`. -/
def toArray (v : Vector4) (a : ℕ → ℝ) (offset : ℕ) : ℕ → ℝ :=
  fun i =>
    if i = offset then v.x
    else if i = offset + 1 then v.y
    else if i = offset + 2 then v.z
    else if i = offset + 3 then v.w
    else a i

/-- `fromBufferAttribute(attribute, index)`. -/
def fromBufferAttribute (v : Vector4) (gX gY gZ gW : ℕ → ℝ) (index : ℕ) : Vector4 × JSRet :=
  (({ v with x := gX index, y := gY index, z := gZ index, w := gW index }).markDirty, .self)

/-- `random()`: the four `Math.random()` draws are passed in. -/
def random (v : Vector4) (r1 r2 r3 r4 : ℝ) : Vector4 × JSRet :=
  (({ v with x := r1, y := r2, z := r3, w := r4 }).markDirty, .self)

/-- Method form of `lengthSq()`. -/
def lengthSqM (v : Vector4) : Vector4 × ℝ := (v, v.lengthSq)

/-- Method form of `length()`. -/
def lengthM (v : Vector4) : Vector4 × ℝ := (v, v.length)

/-- Method form of `manhattanLength()`. -/
def manhattanLengthM (v : Vector4) : Vector4 × ℝ := (v, v.manhattanLength)

/-- Method form of `dot(v)`. -/
def dotM (v t : Vector4) : Vector4 × ℝ := (v, v.dot t)

/-- Method form of `equals(v)`. -/
def equalsM (v t : Vector4) : Vector4 × Bool := (v, v.equals t)

/-- The `[Symbol.iterator]` generator: yields `x`, `y`, `z`, `w`. -/
def componentsM (v : Vector4) : Vector4 × List ℝ := (v, [v.x, v.y, v.z, v.w])

end Vector4

/-- State of a `Vector2` instance (`src/core/Vector2.js`). -/
structure Vector2 where
  x : ℝ
  y : ℝ
  isDirty : Bool
  hasObserver : Bool
  notified : ℕ

namespace Vector2

/-- `new Vector2(x, y)`: `isDirty = false`, `onChange = null`. -/
def create (x y : ℝ) : Vector2 := ⟨x, y, false, false, 0⟩

/-- Observer invocations performed by one `#markDirty()`. -/
def notifyStep (v : Vector2) : ℕ := if v.hasObserver then 1 else 0

/-- The mark-dirty hook of Vector2, identical to the Vector3 one. -/
def markDirty (v : Vector2) : Vector2 :=
  { v with isDirty := true, notified := v.notified + v.notifyStep }

/-- `lengthSq()`. -/
def lengthSq (v : Vector2) : ℝ := v.x * v.x + v.y * v.y

/-- `length() = Math.sqrt(this.lengthSq())`. -/
def length (v : Vector2) : ℝ := Real.sqrt v.lengthSq

/-- `manhattanLength()`. -/
def manhattanLength (v : Vector2) : ℝ := |v.x| + |v.y|

/-- `dot(v)`. -/
def dot (v t : Vector2) : ℝ := v.x * t.x + v.y * t.y

/-- `cross(v)`: scalar 2D cross product, a pure query. -/
def cross (v t : Vector2) : ℝ := v.x * t.y - v.y * t.x

/-- `equals(v)`. -/
def equals (v t : Vector2) : Bool := decide (t.x = v.x ∧ t.y = v.y)

/-- `distanceToSquared(v)`. -/
def distanceToSquared (v t : Vector2) : ℝ :=
  (v.x - t.x) * (v.x - t.x) + (v.y - t.y) * (v.y - t.y)

/-- `distanceTo(v)`. -/
def distanceTo (v t : Vector2) : ℝ := Real.sqrt (v.distanceToSquared t)

/-- `manhattanDistanceTo(v)`. -/
def manhattanDistanceTo (v t : Vector2) : ℝ := |v.x - t.x| + |v.y - t.y|

/-- `set(x, y)`. -/
def set (v : Vector2) (x y : ℝ) : Vector2 × JSRet :=
  (({ v with x := x, y := y }).markDirty, .self)

/-- `setScalar(scalar)`. -/
def setScalar (v : Vector2) (s : ℝ) : Vector2 × JSRet :=
  (({ v with x := s, y := s }).markDirty, .self)

/-- `setX(x)`. -/
def setX (v : Vector2) (x : ℝ) : Vector2 × JSRet :=
  (({ v with x := x }).markDirty, .self)

/-- `setY(y)`. -/
def setY (v : Vector2) (y : ℝ) : Vector2 × JSRet :=
  (({ v with y := y }).markDirty, .self)

/-- `setComponent(index, value)`. -/
def setComponent (v : Vector2) (index : ℕ) (value : ℝ) :
    Except String (Vector2 × JSRet) :=
  if index = 0 then .ok (({ v with x := value }).markDirty, .self)
  else if index = 1 then .ok (({ v with y := value }).markDirty, .self)
  else .error Vector3.indexOutOfRangeMsg

/-- `copy(v)`. -/
def copy (v s : Vector2) : Vector2 × JSRet :=
  (({ v with x := s.x, y := s.y }).markDirty, .self)

/-- `add(v)`. -/
def add (v t : Vector2) : Vector2 × JSRet :=
  (({ v with x := v.x + t.x, y := v.y + t.y }).markDirty, .self)

/-- `addScalar(s)`. -/
def addScalar (v : Vector2) (s : ℝ) : Vector2 × JSRet :=
  (({ v with x := v.x + s, y := v.y + s }).markDirty, .self)

/-- `addVectors(a, b)`. -/
def addVectors (v a b : Vector2) : Vector2 × JSRet :=
  (({ v with x := a.x + b.x, y := a.y + b.y }).markDirty, .self)

/-- `addScaledVector(v, s)`. -/
def addScaledVector (v t : Vector2) (s : ℝ) : Vector2 × JSRet :=
  (({ v with x := v.x + t.x * s, y := v.y + t.y * s }).markDirty, .self)

/-- `sub(v)`. -/
def sub (v t : Vector2) : Vector2 × JSRet :=
  (({ v with x := v.x - t.x, y := v.y - t.y }).markDirty, .self)

/-- `subScalar(s)`. -/
def subScalar (v : Vector2) (s : ℝ) : Vector2 × JSRet :=
  (({ v with x := v.x - s, y := v.y - s }).markDirty, .self)

/-- `subVectors(a, b)`. -/
def subVectors (v a b : Vector2) : Vector2 × JSRet :=
  (({ v with x := a.x - b.x, y := a.y - b.y }).markDirty, .self)

/-- `multiply(v)`. -/
def multiply (v t : Vector2) : Vector2 × JSRet :=
  (({ v with x := v.x * t.x, y := v.y * t.y }).markDirty, .self)

/-- `multiplyScalar(scalar)`. -/
def multiplyScalar (v : Vector2) (s : ℝ) : Vector2 × JSRet :=
  (({ v with x := v.x * s, y := v.y * s }).markDirty, .self)

/-- `divide(v)`. -/
def divide (v t : Vector2) : Vector2 × JSRet :=
  (({ v with x := v.x / t.x, y := v.y / t.y }).markDirty, .self)

/-- `divideScalar(scalar) = this.multiplyScalar(1 / scalar)`. -/
def divideScalar (v : Vector2) (s : ℝ) : Vector2 × JSRet :=
  v.multiplyScalar (1 / s)

/-- `applyMatrix3(m)`: implicit homogeneous `z = 1`. -/
def applyMatrix3 (v : Vector2) (e : ℕ → ℝ) : Vector2 × JSRet :=
  (({ v with
      x := e 0 * v.x + e 3 * v.y + e 6,
      y := e 1 * v.x + e 4 * v.y + e 7 }).markDirty, .self)

/-- `rotateAround(center, angle)`. -/
def rotateAround (v c : Vector2) (angle : ℝ) : Vector2 × JSRet :=
  let dx := v.x - c.x
  let dy := v.y - c.y
  (({ v with
      x := dx * Real.cos angle - dy * Real.sin angle + c.x,
      y := dx * Real.sin angle + dy * Real.cos angle + c.y }).markDirty, .self)

/-- `normalize() = this.divideScalar(this.length() || 1)`. -/
def normalize (v : Vector2) : Vector2 × JSRet :=
  v.divideScalar (Vector3.jsOr v.length 1)

/-- `setLength(length) = this.normalize().multiplyScalar(length)`. -/
def setLength (v : Vector2) (l : ℝ) : Vector2 × JSRet :=
  ((v.normalize).1).multiplyScalar l

/-- `clamp(min, max)` with vector bounds. -/
def clamp (v mn mx : Vector2) : Vector2 × JSRet :=
  (({ v with
      x := MathUtils.clamp v.x mn.x mx.x,
      y := MathUtils.clamp v.y mn.y mx.y }).markDirty, .self)

/-- `clampScalar(minVal, maxVal)`. -/
def clampScalar (v : Vector2) (lo hi : ℝ) : Vector2 × JSRet :=
  (({ v with
      x := MathUtils.clamp v.x lo hi,
      y := MathUtils.clamp v.y lo hi }).markDirty, .self)

/-- `clampLength(min, max)`. -/
def clampLength (v : Vector2) (lo hi : ℝ) : Vector2 × JSRet :=
  let len := v.length
  ((v.divideScalar (Vector3.jsOr len 1)).1).multiplyScalar (MathUtils.clamp len lo hi)

/-- `floor()`. -/
def floor (v : Vector2) : Vector2 × JSRet :=
  (({ v with x := (⌊v.x⌋ : ℝ), y := (⌊v.y⌋ : ℝ) }).markDirty, .self)

/-- `ceil()`. -/
def ceil (v : Vector2) : Vector2 × JSRet :=
  (({ v with x := (⌈v.x⌉ : ℝ), y := (⌈v.y⌉ : ℝ) }).markDirty, .self)

/-- `round()`. -/
def round (v : Vector2) : Vector2 × JSRet :=
  (({ v with x := (jsRound v.x : ℝ), y := (jsRound v.y : ℝ) }).markDirty, .self)

/-- `roundToZero()`. -/
def roundToZero (v : Vector2) : Vector2 × JSRet :=
  (({ v with x := jsTrunc v.x, y := jsTrunc v.y }).markDirty, .self)

/-- `negate()`. -/
def negate (v : Vector2) : Vector2 × JSRet :=
  (({ v with x := -v.x, y := -v.y }).markDirty, .self)

/-- `fromArray(array, offset)`. -/
def fromArray (v : Vector2) (a : ℕ → ℝ) (offset : ℕ) : Vector2 × JSRet :=
  (({ v with x := a offset, y := a (offset + 1) }).markDirty, .self)

/-- `toArray(array, offset)`: no `#markDirty`. -/
def toArray (v : Vector2) (a : ℕ → ℝ) (offset : ℕ) : ℕ → ℝ :=
  fun i =>
    if i = offset then v.x
    else if i = offset + 1 then v.y
    else a i

/-- `fromBufferAttribute(attribute, index)`. -/
def fromBufferAttribute (v : Vector2) (gX gY : ℕ → ℝ) (index : ℕ) : Vector2 × JSRet :=
  (({ v with x := gX index, y := gY index }).markDirty, .self)

/-- `random()`: the two `Math.random()` draws are passed in. -/
def random (v : Vector2) (r1 r2 : ℝ) : Vector2 × JSRet :=
  (({ v with x := r1, y := r2 }).markDirty, .self)

/-- Method form of `lengthSq()`. -/
def lengthSqM (v : Vector2) : Vector2 × ℝ := (v, v.lengthSq)

/-- Method form of `length()`. -/
def lengthM (v : Vector2) : Vector2 × ℝ := (v, v.length)

/-- Method form of `dot(v)`. -/
def dotM (v t : Vector2) : Vector2 × ℝ := (v, v.dot t)

/-- Method form of the scalar `cross(v)`. -/
def crossM (v t : Vector2) : Vector2 × ℝ := (v, v.cross t)

/-- Method form of `equals(v)`. -/
def equalsM (v t : Vector2) : Vector2 × Bool := (v, v.equals t)

/-- Method form of `distanceTo(v)`. -/
def distanceToM (v t : Vector2) : Vector2 × ℝ := (v, v.distanceTo t)

/-- Method form of `distanceToSquared(v)`. -/
def distanceToSquaredM (v t : Vector2) : Vector2 × ℝ := (v, v.distanceToSquared t)

/-- Method form of `manhattanDistanceTo(v)`. -/
def manhattanDistanceToM (v t : Vector2) : Vector2 × ℝ := (v, v.manhattanDistanceTo t)

/-- Method form of `manhattanLength()`. -/
def manhattanLengthM (v : Vector2) : Vector2 × ℝ := (v, v.manhattanLength)

/-- The `[Symbol.iterator]` generator: yields `x`, `y`. -/
def componentsM (v : Vector2) : Vector2 × List ℝ := (v, [v.x, v.y])

end Vector2

/-- The empty JS array `[]` passed to `toArray`; slots never written by
`toArray` are not read by any claim considered here. -/
def emptyArr : ℕ → ℝ := fun _ => 0

/-- Mutation postcondition at multiplicity `k`: after the call, the dirty
flag is true and, when an observer was attached, it has been invoked
exactly `k` more times than before (each invocation passes the vector
itself, as `#markDirty` shows). -/
def Vector3.mutated (r : Vector3 × JSRet) (v : Vector3) (k : ℕ) : Prop :=
  r.1.isDirty = true ∧ r.1.notified = v.notified + k * v.notifyStep

/-- Mutation postcondition for Vector4. -/
def Vector4.mutated (r : Vector4 × JSRet) (v : Vector4) (k : ℕ) : Prop :=
  r.1.isDirty = true ∧ r.1.notified = v.notified + k * v.notifyStep

/-- Mutation postcondition for Vector2. -/
def Vector2.mutated (r : Vector2 × JSRet) (v : Vector2) (k : ℕ) : Prop :=
  r.1.isDirty = true ∧ r.1.notified = v.notified + k * v.notifyStep

/-- The identity matrix as a flat column-major `elements` sequence. -/
def idMatrix : ℕ → ℝ := fun i => if i = 0 ∨ i = 5 ∨ i = 10 then 1 else 0

/-- The 180°-rotation about the x-axis, `diag(1, -1, -1)`, as `elements`. -/
def rot180xMatrix : ℕ → ℝ := fun i =>
  if i = 0 then 1 else if i = 5 ∨ i = 10 then -1 else 0

/-- The 90°-rotation about the z-axis as `elements`
(column-major: `e[1] = sin θ = 1`, `e[4] = -sin θ = -1`). -/
def rotZ90Matrix : ℕ → ℝ := fun i =>
  if i = 1 then 1 else if i = 4 then -1 else if i = 10 ∨ i = 15 then 1 else 0

/-- A symmetric matrix with trace exactly 3 whose off-diagonal pair
`m12 = m21 = 0.06` sums to 0.12 ≥ 0.1: it passes the near-symmetric test
and has trace near 3, yet fails the identity sub-test on the
off-diagonal sums. -/
def nearSymMatrix : ℕ → ℝ := fun i =>
  if i = 1 ∨ i = 4 then 0.06 else if i = 0 ∨ i = 5 ∨ i = 10 then 1 else 0

end

/-- C5 counterexample: the claim gives the signed 8-bit scale factor as 255,
so it predicts `normalize(v, Int8Array) = round(v·255)` for every `v`; the
source multiplies by 127, and at `v = 1` the two disagree (127 ≠ 255). -/
theorem C5_normalize_int8_factor_not_255 :
    ¬ ∀ v : ℚ,
        MathUtils.normalize v MathUtils.ArrayKind.int8 =
          Except.ok ((round (v * 255) : ℤ) : ℚ) := by
  intro h
  have h1 := h 1
  simp only [MathUtils.normalize, one_mul, Except.ok.injEq] at h1
  norm_num at h1

/-- C5 (amended): `normalize`/`denormalize` support a float identity
passthrough plus signed and unsigned 8/16/32-bit integer encodings with
exact scale factors 127, 32767, 2147483647 for the signed widths
(`normalize` multiplies and rounds, `denormalize` divides, the signed
branches of `denormalize` clamping at -1) and 255, 65535, 4294967295 for
the unsigned widths, and both fail with the `Invalid type`
(unsupported-encoding) error for any other encoding. -/
theorem C5_encoding_widths :
    ∀ v : ℚ,
      MathUtils.normalize v .float32 = .ok v ∧
      MathUtils.normalize v .uint32 = .ok ((round (v * 4294967295) : ℤ) : ℚ) ∧
      MathUtils.normalize v .uint16 = .ok ((round (v * 65535) : ℤ) : ℚ) ∧
      MathUtils.normalize v .uint8 = .ok ((round (v * 255) : ℤ) : ℚ) ∧
      MathUtils.normalize v .int32 = .ok ((round (v * 2147483647) : ℤ) : ℚ) ∧
      MathUtils.normalize v .int16 = .ok ((round (v * 32767) : ℤ) : ℚ) ∧
      MathUtils.normalize v .int8 = .ok ((round (v * 127) : ℤ) : ℚ) ∧
      MathUtils.normalize v .other = .error MathUtils.invalidTypeMsg ∧
      MathUtils.denormalize v .float32 = .ok v ∧
      MathUtils.denormalize v .uint32 = .ok (v / 4294967295) ∧
      MathUtils.denormalize v .uint16 = .ok (v / 65535) ∧
      MathUtils.denormalize v .uint8 = .ok (v / 255) ∧
      MathUtils.denormalize v .int32 = .ok (max (v / 2147483647) (-1)) ∧
      MathUtils.denormalize v .int16 = .ok (max (v / 32767) (-1)) ∧
      MathUtils.denormalize v .int8 = .ok (max (v / 127) (-1)) ∧
      MathUtils.denormalize v .other = .error MathUtils.invalidTypeMsg := by
  intro v
  refine ⟨rfl, rfl, rfl, rfl, rfl, rfl, rfl, rfl, rfl, rfl, rfl, rfl, rfl, rfl, rfl, rfl⟩

/-- C6: for every input value, `denormalize` clamps the result to a floor of
-1 on each of the three signed integer encodings and applies no clamp on
the three unsigned encodings (plain division only); concretely, the input
-510 on the unsigned 8-bit encoding produces -2, which is below -1. -/
theorem C6_denormalize_signed_clamp :
    (∀ v : ℚ,
      MathUtils.denormalize v .int8 = .ok (max (v / 127) (-1)) ∧
      MathUtils.denormalize v .int16 = .ok (max (v / 32767) (-1)) ∧
      MathUtils.denormalize v .int32 = .ok (max (v / 2147483647) (-1)) ∧
      (-1 : ℚ) ≤ max (v / 127) (-1) ∧
      (-1 : ℚ) ≤ max (v / 32767) (-1) ∧
      (-1 : ℚ) ≤ max (v / 2147483647) (-1) ∧
      MathUtils.denormalize v .uint8 = .ok (v / 255) ∧
      MathUtils.denormalize v .uint16 = .ok (v / 65535) ∧
      MathUtils.denormalize v .uint32 = .ok (v / 4294967295)) ∧
    MathUtils.denormalize (-510) .uint8 = .ok (-2) ∧
    ((-2 : ℚ) < -1) := by
  refine ⟨fun v => ⟨rfl, rfl, rfl, le_max_right _ _, le_max_right _ _,
    le_max_right _ _, rfl, rfl, rfl⟩, ?_, by norm_num⟩
  simp only [MathUtils.denormalize, Except.ok.injEq]
  norm_num

/-- C10: after `Vector3.setFromMatrixScale(m)` returns, `x` and `y` equal
elements 8 and 9 of `m.elements` (the first two entries of the third
column) and only `z` equals a column length (the Euclidean length of the
third column): each intermediate per-column length assigned to `x`/`y`
is overwritten by the following `setFromMatrixColumn` call. -/
theorem C10_setFromMatrixScale_overwritten :
    ∀ (v : Vector3) (e : ℕ → ℝ),
      ((v.setFromMatrixScale e).1).x = e 8 ∧
      ((v.setFromMatrixScale e).1).y = e 9 ∧
      ((v.setFromMatrixScale e).1).z =
        Real.sqrt (e 8 * e 8 + e 9 * e 9 + e 10 * e 10) := by
  intro v e
  refine ⟨?_, ?_, ?_⟩ <;>
    simp [Vector3.setFromMatrixScale, Vector3.setFromMatrixColumn,
      Vector3.fromArray, Vector3.markDirty, Vector3.length, Vector3.lengthSq]

/-- C8: for every vector of each of the three dimensions and every
offset `k`, reading back with `fromArray` the array produced by
`toArray([], k)` at the same offset reproduces the components exactly. -/
theorem C8_toArray_fromArray_roundtrip :
    ∀ k : ℕ,
      (∀ v w : Vector3,
        ((w.fromArray (v.toArray emptyArr k) k).1).x = v.x ∧
        ((w.fromArray (v.toArray emptyArr k) k).1).y = v.y ∧
        ((w.fromArray (v.toArray emptyArr k) k).1).z = v.z) ∧
      (∀ v w : Vector4,
        ((w.fromArray (v.toArray emptyArr k) k).1).x = v.x ∧
        ((w.fromArray (v.toArray emptyArr k) k).1).y = v.y ∧
        ((w.fromArray (v.toArray emptyArr k) k).1).z = v.z ∧
        ((w.fromArray (v.toArray emptyArr k) k).1).w = v.w) ∧
      (∀ v w : Vector2,
        ((w.fromArray (v.toArray emptyArr k) k).1).x = v.x ∧
        ((w.fromArray (v.toArray emptyArr k) k).1).y = v.y) := by
  intro k
  refine ⟨fun v w => ?_, fun v w => ?_, fun v w => ?_⟩ <;>
    simp [Vector3.fromArray, Vector3.toArray, Vector4.fromArray, Vector4.toArray,
      Vector2.fromArray, Vector2.toArray, Vector3.markDirty, Vector4.markDirty,
      Vector2.markDirty]

/-- C9: the pure queries — `equals`, `length`, `lengthSq`,
`manhattanLength`, `dot`, the distance queries, 2D `cross`, and component
iteration — return the receiver state unchanged: in particular they leave
the dirty flag untouched and never invoke the observer. -/
theorem C9_queries_pure :
    (∀ v t : Vector3, (v.equalsM t).1 = v) ∧
    (∀ v : Vector3, (v.lengthSqM).1 = v) ∧
    (∀ v : Vector3, (v.lengthM).1 = v) ∧
    (∀ v : Vector3, (v.manhattanLengthM).1 = v) ∧
    (∀ v t : Vector3, (v.dotM t).1 = v) ∧
    (∀ v t : Vector3, (v.distanceToM t).1 = v) ∧
    (∀ v t : Vector3, (v.distanceToSquaredM t).1 = v) ∧
    (∀ v t : Vector3, (v.manhattanDistanceToM t).1 = v) ∧
    (∀ v : Vector3, (v.componentsM).1 = v) ∧
    (∀ v t : Vector4, (v.equalsM t).1 = v) ∧
    (∀ v : Vector4, (v.lengthSqM).1 = v) ∧
    (∀ v : Vector4, (v.lengthM).1 = v) ∧
    (∀ v : Vector4, (v.manhattanLengthM).1 = v) ∧
    (∀ v t : Vector4, (v.dotM t).1 = v) ∧
    (∀ v : Vector4, (v.componentsM).1 = v) ∧
    (∀ v t : Vector2, (v.equalsM t).1 = v) ∧
    (∀ v : Vector2, (v.lengthSqM).1 = v) ∧
    (∀ v : Vector2, (v.lengthM).1 = v) ∧
    (∀ v : Vector2, (v.manhattanLengthM).1 = v) ∧
    (∀ v t : Vector2, (v.dotM t).1 = v) ∧
    (∀ v t : Vector2, (v.crossM t).1 = v) ∧
    (∀ v t : Vector2, (v.distanceToM t).1 = v) ∧
    (∀ v t : Vector2, (v.distanceToSquaredM t).1 = v) ∧
    (∀ v t : Vector2, (v.manhattanDistanceToM t).1 = v) ∧
    (∀ v : Vector2, (v.componentsM).1 = v) := by
  repeat' apply And.intro
  all_goals intros
  all_goals rfl

/-- C4: for every quaternion `q`, `setAxisAngleFromQuaternion(q)` sets
`w` to `2·acos(q.w)` and, with `s = sqrt(1 − q.w²)`, sets the axis to
`(q.x/s, q.y/s, q.z/s)` when `s ≥ 1e-4` and to the fallback `(1, 0, 0)`
when `s < 1e-4`; the identity quaternion `(0, 0, 0, 1)` yields axis
`(1, 0, 0)` and angle `0`. -/
theorem C4_setAxisAngleFromQuaternion :
    (∀ (v : Vector4) (q : Quaternion),
      ((v.setAxisAngleFromQuaternion q).1).w = 2 * Real.arccos q.w ∧
      (Real.sqrt (1 - q.w * q.w) < 0.0001 →
        ((v.setAxisAngleFromQuaternion q).1).x = 1 ∧
        ((v.setAxisAngleFromQuaternion q).1).y = 0 ∧
        ((v.setAxisAngleFromQuaternion q).1).z = 0) ∧
      (0.0001 ≤ Real.sqrt (1 - q.w * q.w) →
        ((v.setAxisAngleFromQuaternion q).1).x = q.x / Real.sqrt (1 - q.w * q.w) ∧
        ((v.setAxisAngleFromQuaternion q).1).y = q.y / Real.sqrt (1 - q.w * q.w) ∧
        ((v.setAxisAngleFromQuaternion q).1).z = q.z / Real.sqrt (1 - q.w * q.w))) ∧
    (∀ v : Vector4,
      ((v.setAxisAngleFromQuaternion ⟨0, 0, 0, 1⟩).1).x = 1 ∧
      ((v.setAxisAngleFromQuaternion ⟨0, 0, 0, 1⟩).1).y = 0 ∧
      ((v.setAxisAngleFromQuaternion ⟨0, 0, 0, 1⟩).1).z = 0 ∧
      ((v.setAxisAngleFromQuaternion ⟨0, 0, 0, 1⟩).1).w = 0) := by
  constructor
  · intro v q
    refine ⟨?_, ?_, ?_⟩
    · by_cases h : Real.sqrt (1 - q.w * q.w) < 0.0001 <;>
        simp [Vector4.setAxisAngleFromQuaternion, Vector4.markDirty, h]
    · intro h
      simp [Vector4.setAxisAngleFromQuaternion, Vector4.markDirty, h]
    · intro h
      simp [Vector4.setAxisAngleFromQuaternion, Vector4.markDirty, not_lt.mpr h]
  · intro v
    have hs : Real.sqrt (1 - (1 : ℝ) * 1) < 0.0001 := by
      rw [show (1 - (1 : ℝ) * 1) = 0 by ring, Real.sqrt_zero]
      norm_num
    simp only [Vector4.setAxisAngleFromQuaternion, Vector4.markDirty, hs,
      Real.arccos_one, if_true, mul_zero]
    norm_num

/-- C4 witness: the degenerate branch at the identity quaternion and the
regular branch at `q = (2, 0, 0, 0)` (where `s = sqrt 1 = 1`), both via
`C4_setAxisAngleFromQuaternion`. -/
theorem C4_setAxisAngleFromQuaternion_witness :
    (Real.sqrt (1 - (1 : ℝ) * 1) < 0.0001 ∧
      (((Vector4.create 0 0 0 1).setAxisAngleFromQuaternion ⟨0, 0, 0, 1⟩).1).x = 1) ∧
    (0.0001 ≤ Real.sqrt (1 - (0 : ℝ) * 0) ∧
      (((Vector4.create 0 0 0 1).setAxisAngleFromQuaternion ⟨2, 0, 0, 0⟩).1).x =
        2 / Real.sqrt (1 - (0 : ℝ) * 0)) := by
  have hdeg : Real.sqrt (1 - (1 : ℝ) * 1) < 0.0001 := by
    rw [show (1 - (1 : ℝ) * 1) = 0 by ring, Real.sqrt_zero]
    norm_num
  have hreg : (0.0001 : ℝ) ≤ Real.sqrt (1 - (0 : ℝ) * 0) := by
    rw [show (1 - (0 : ℝ) * 0) = 1 by ring, Real.sqrt_one]
    norm_num
  refine ⟨⟨hdeg, ?_⟩, ⟨hreg, ?_⟩⟩
  · exact (((C4_setAxisAngleFromQuaternion.1 (Vector4.create 0 0 0 1)
      ⟨0, 0, 0, 1⟩).2.1) hdeg).1
  · exact (((C4_setAxisAngleFromQuaternion.1 (Vector4.create 0 0 0 1)
      ⟨2, 0, 0, 0⟩).2.2) hreg).1

/-- Algebra helper: scaling a 3-component vector by the reciprocal of a
number whose square is its squared length yields squared length 1. -/
lemma normalizeAux3 (x y z L : ℝ) (hL : L ≠ 0)
    (hsq : L * L = x * x + y * y + z * z) :
    Real.sqrt (x * (1 / L) * (x * (1 / L)) + y * (1 / L) * (y * (1 / L)) +
      z * (1 / L) * (z * (1 / L))) = 1 := by
  have h1 : x * (1 / L) * (x * (1 / L)) + y * (1 / L) * (y * (1 / L)) +
      z * (1 / L) * (z * (1 / L)) = 1 := by
    field_simp
    nlinarith [hsq]
  rw [h1, Real.sqrt_one]

/-- Same helper for 4 components. -/
lemma normalizeAux4 (x y z w L : ℝ) (hL : L ≠ 0)
    (hsq : L * L = x * x + y * y + z * z + w * w) :
    Real.sqrt (x * (1 / L) * (x * (1 / L)) + y * (1 / L) * (y * (1 / L)) +
      z * (1 / L) * (z * (1 / L)) + w * (1 / L) * (w * (1 / L))) = 1 := by
  have h1 : x * (1 / L) * (x * (1 / L)) + y * (1 / L) * (y * (1 / L)) +
      z * (1 / L) * (z * (1 / L)) + w * (1 / L) * (w * (1 / L)) = 1 := by
    field_simp
    nlinarith [hsq]
  rw [h1, Real.sqrt_one]

/-- Same helper for 2 components. -/
lemma normalizeAux2 (x y L : ℝ) (hL : L ≠ 0)
    (hsq : L * L = x * x + y * y) :
    Real.sqrt (x * (1 / L) * (x * (1 / L)) + y * (1 / L) * (y * (1 / L))) = 1 := by
  have h1 : x * (1 / L) * (x * (1 / L)) + y * (1 / L) * (y * (1 / L)) = 1 := by
    field_simp
    nlinarith [hsq]
  rw [h1, Real.sqrt_one]

/-- C7: `normalize()` never divides by zero, via the `length || 1`
fallback divisor: every vector of nonzero squared length normalizes to
Euclidean length exactly 1 (exact in the real-number embedding), and the
zero vector normalizes to the zero vector. -/
theorem C7_normalize_never_divides_by_zero :
    (∀ v : Vector3, v.lengthSq ≠ 0 → (((v.normalize).1).length) = 1) ∧
    (∀ v : Vector3, v.x = 0 → v.y = 0 → v.z = 0 →
      ((v.normalize).1).x = 0 ∧ ((v.normalize).1).y = 0 ∧ ((v.normalize).1).z = 0) ∧
    (∀ v : Vector4, v.lengthSq ≠ 0 → (((v.normalize).1).length) = 1) ∧
    (∀ v : Vector4, v.x = 0 → v.y = 0 → v.z = 0 → v.w = 0 →
      ((v.normalize).1).x = 0 ∧ ((v.normalize).1).y = 0 ∧
      ((v.normalize).1).z = 0 ∧ ((v.normalize).1).w = 0) ∧
    (∀ v : Vector2, v.lengthSq ≠ 0 → (((v.normalize).1).length) = 1) ∧
    (∀ v : Vector2, v.x = 0 → v.y = 0 →
      ((v.normalize).1).x = 0 ∧ ((v.normalize).1).y = 0) := by
  refine ⟨?_, ?_, ?_, ?_, ?_, ?_⟩
  · intro v h
    have h0 : (0 : ℝ) ≤ v.lengthSq := by
      have hx := mul_self_nonneg v.x
      have hy := mul_self_nonneg v.y
      have hz := mul_self_nonneg v.z
      unfold Vector3.lengthSq
      linarith
    have hL : 0 < v.length := Real.sqrt_pos.mpr (lt_of_le_of_ne h0 (Ne.symm h))
    have hLne : v.length ≠ 0 := ne_of_gt hL
    have hsq : v.length * v.length = v.x * v.x + v.y * v.y + v.z * v.z :=
      Real.mul_self_sqrt h0
    have hjs : Vector3.jsOr v.length 1 = v.length := by
      unfold Vector3.jsOr
      rw [if_neg hLne]
    show Real.sqrt
        (v.x * (1 / Vector3.jsOr v.length 1) * (v.x * (1 / Vector3.jsOr v.length 1)) +
         v.y * (1 / Vector3.jsOr v.length 1) * (v.y * (1 / Vector3.jsOr v.length 1)) +
         v.z * (1 / Vector3.jsOr v.length 1) * (v.z * (1 / Vector3.jsOr v.length 1))) = 1
    rw [hjs]
    exact normalizeAux3 v.x v.y v.z v.length hLne hsq
  · intro v hx hy hz
    simp [Vector3.normalize, Vector3.divideScalar, Vector3.multiplyScalar,
      Vector3.jsOr, Vector3.markDirty, Vector3.length, Vector3.lengthSq, hx, hy, hz]
  · intro v h
    have h0 : (0 : ℝ) ≤ v.lengthSq := by
      have hx := mul_self_nonneg v.x
      have hy := mul_self_nonneg v.y
      have hz := mul_self_nonneg v.z
      have hw := mul_self_nonneg v.w
      unfold Vector4.lengthSq
      linarith
    have hL : 0 < v.length := Real.sqrt_pos.mpr (lt_of_le_of_ne h0 (Ne.symm h))
    have hLne : v.length ≠ 0 := ne_of_gt hL
    have hsq : v.length * v.length = v.x * v.x + v.y * v.y + v.z * v.z + v.w * v.w :=
      Real.mul_self_sqrt h0
    have hjs : Vector3.jsOr v.length 1 = v.length := by
      unfold Vector3.jsOr
      rw [if_neg hLne]
    show Real.sqrt
        (v.x * (1 / Vector3.jsOr v.length 1) * (v.x * (1 / Vector3.jsOr v.length 1)) +
         v.y * (1 / Vector3.jsOr v.length 1) * (v.y * (1 / Vector3.jsOr v.length 1)) +
         v.z * (1 / Vector3.jsOr v.length 1) * (v.z * (1 / Vector3.jsOr v.length 1)) +
         v.w * (1 / Vector3.jsOr v.length 1) * (v.w * (1 / Vector3.jsOr v.length 1))) = 1
    rw [hjs]
    exact normalizeAux4 v.x v.y v.z v.w v.length hLne hsq
  · intro v hx hy hz hw
    simp [Vector4.normalize, Vector4.divideScalar, Vector4.multiplyScalar,
      Vector3.jsOr, Vector4.markDirty, Vector4.length, Vector4.lengthSq, hx, hy, hz, hw]
  · intro v h
    have h0 : (0 : ℝ) ≤ v.lengthSq := by
      have hx := mul_self_nonneg v.x
      have hy := mul_self_nonneg v.y
      unfold Vector2.lengthSq
      linarith
    have hL : 0 < v.length := Real.sqrt_pos.mpr (lt_of_le_of_ne h0 (Ne.symm h))
    have hLne : v.length ≠ 0 := ne_of_gt hL
    have hsq : v.length * v.length = v.x * v.x + v.y * v.y :=
      Real.mul_self_sqrt h0
    have hjs : Vector3.jsOr v.length 1 = v.length := by
      unfold Vector3.jsOr
      rw [if_neg hLne]
    show Real.sqrt
        (v.x * (1 / Vector3.jsOr v.length 1) * (v.x * (1 / Vector3.jsOr v.length 1)) +
         v.y * (1 / Vector3.jsOr v.length 1) * (v.y * (1 / Vector3.jsOr v.length 1))) = 1
    rw [hjs]
    exact normalizeAux2 v.x v.y v.length hLne hsq
  · intro v hx hy
    simp [Vector2.normalize, Vector2.divideScalar, Vector2.multiplyScalar,
      Vector3.jsOr, Vector2.markDirty, Vector2.length, Vector2.lengthSq, hx, hy]

/-- C7 witness: the vector `(3, 4, 0)` (squared length 25) normalizes to
length 1 in each of the three vector types, and the zero vector stays zero, all
via `C7_normalize_never_divides_by_zero`. -/
theorem C7_normalize_witness :
    ((Vector3.create 3 4 0).lengthSq ≠ 0 ∧
      ((((Vector3.create 3 4 0).normalize).1).length) = 1) ∧
    ((((Vector3.create 0 0 0).normalize).1).x = 0) ∧
    ((Vector4.create 3 4 0 0).lengthSq ≠ 0 ∧
      ((((Vector4.create 3 4 0 0).normalize).1).length) = 1) ∧
    ((((Vector4.create 0 0 0 0).normalize).1).x = 0) ∧
    ((Vector2.create 3 4).lengthSq ≠ 0 ∧
      ((((Vector2.create 3 4).normalize).1).length) = 1) ∧
    ((((Vector2.create 0 0).normalize).1).x = 0) := by
  have h3 : (Vector3.create 3 4 0).lengthSq ≠ 0 := by
    norm_num [Vector3.lengthSq, Vector3.create]
  have h4 : (Vector4.create 3 4 0 0).lengthSq ≠ 0 := by
    norm_num [Vector4.lengthSq, Vector4.create]
  have h2 : (Vector2.create 3 4).lengthSq ≠ 0 := by
    norm_num [Vector2.lengthSq, Vector2.create]
  refine ⟨⟨h3, C7_normalize_never_divides_by_zero.1 _ h3⟩,
    (C7_normalize_never_divides_by_zero.2.1 (Vector3.create 0 0 0) rfl rfl rfl).1,
    ⟨h4, C7_normalize_never_divides_by_zero.2.2.1 _ h4⟩,
    (C7_normalize_never_divides_by_zero.2.2.2.1 (Vector4.create 0 0 0 0)
      rfl rfl rfl rfl).1,
    ⟨h2, C7_normalize_never_divides_by_zero.2.2.2.2.1 _ h2⟩,
    (C7_normalize_never_divides_by_zero.2.2.2.2.2 (Vector2.create 0 0) rfl rfl).1⟩

/-- C2 counterexample: `Vector3.projectOnPlane` does not return `this`:
its body ends in `return this.sub(_vector).#markDirty();`, and
`#markDirty()` returns `undefined`. -/
theorem C2_counterexample_projectOnPlane_returns_undefined :
    ¬ ∀ (v n : Vector3), (v.projectOnPlane n).2 = JSRet.self := by
  intro h
  have hc := h (Vector3.create 1 0 0) (Vector3.create 1 0 0)
  simp [Vector3.projectOnPlane] at hc

/-- C2 (amended): every mutating operation returns the vector instance it
was called on — except `Vector3.projectOnPlane` and `Vector3.reflect`,
which return `undefined` (the value of their trailing `#markDirty()`
call). -/
theorem C2_mutators_return_this :
    (∀ (v : Vector3) (x y : ℝ) (z : Option ℝ), (v.set x y z).2 = JSRet.self) ∧
    (∀ (v : Vector3) (s : ℝ), (v.setScalar s).2 = JSRet.self) ∧
    (∀ (v : Vector3) (s : ℝ), (v.setX s).2 = JSRet.self) ∧
    (∀ (v : Vector3) (s : ℝ), (v.setY s).2 = JSRet.self) ∧
    (∀ (v : Vector3) (s : ℝ), (v.setZ s).2 = JSRet.self) ∧
    (∀ (v : Vector3) (i : ℕ) (s : ℝ) (res : Vector3 × JSRet),
      v.setComponent i s = .ok res → res.2 = JSRet.self) ∧
    (∀ v t : Vector3, (v.copy t).2 = JSRet.self) ∧
    (∀ v t : Vector3, (v.add t).2 = JSRet.self) ∧
    (∀ (v : Vector3) (s : ℝ), (v.addScalar s).2 = JSRet.self) ∧
    (∀ v a b : Vector3, (v.addVectors a b).2 = JSRet.self) ∧
    (∀ (v t : Vector3) (s : ℝ), (v.addScaledVector t s).2 = JSRet.self) ∧
    (∀ v t : Vector3, (v.sub t).2 = JSRet.self) ∧
    (∀ (v : Vector3) (s : ℝ), (v.subScalar s).2 = JSRet.self) ∧
    (∀ v a b : Vector3, (v.subVectors a b).2 = JSRet.self) ∧
    (∀ v t : Vector3, (v.multiply t).2 = JSRet.self) ∧
    (∀ (v : Vector3) (s : ℝ), (v.multiplyScalar s).2 = JSRet.self) ∧
    (∀ v a b : Vector3, (v.multiplyVectors a b).2 = JSRet.self) ∧
    (∀ v t : Vector3, (v.divide t).2 = JSRet.self) ∧
    (∀ (v : Vector3) (s : ℝ), (v.divideScalar s).2 = JSRet.self) ∧
    (∀ (v : Vector3) (q : Quaternion), (v.applyQuaternion q).2 = JSRet.self) ∧
    (∀ (v : Vector3) (e : ℕ → ℝ), (v.applyMatrix3 e).2 = JSRet.self) ∧
    (∀ (v : Vector3) (e : ℕ → ℝ), (v.applyNormalMatrix e).2 = JSRet.self) ∧
    (∀ (v : Vector3) (e : ℕ → ℝ), (v.applyMatrix4 e).2 = JSRet.self) ∧
    (∀ (v : Vector3) (e : ℕ → ℝ), (v.transformDirection e).2 = JSRet.self) ∧
    (∀ (v : Vector3) (e1 e2 : ℕ → ℝ), (v.project e1 e2).2 = JSRet.self) ∧
    (∀ (v : Vector3) (e1 e2 : ℕ → ℝ), (v.unproject e1 e2).2 = JSRet.self) ∧
    (∀ v : Vector3, (v.normalize).2 = JSRet.self) ∧
    (∀ (v : Vector3) (l : ℝ), (v.setLength l).2 = JSRet.self) ∧
    (∀ (v t : Vector3) (a : ℝ), (v.lerp t a).2 = JSRet.self) ∧
    (∀ (v v1 v2 : Vector3) (a : ℝ), (v.lerpVectors v1 v2 a).2 = JSRet.self) ∧
    (∀ v mn mx : Vector3, (v.clamp mn mx).2 = JSRet.self) ∧
    (∀ (v : Vector3) (lo hi : ℝ), (v.clampScalar lo hi).2 = JSRet.self) ∧
    (∀ (v : Vector3) (lo hi : ℝ), (v.clampLength lo hi).2 = JSRet.self) ∧
    (∀ v : Vector3, (v.floor).2 = JSRet.self) ∧
    (∀ v : Vector3, (v.ceil).2 = JSRet.self) ∧
    (∀ v : Vector3, (v.round).2 = JSRet.self) ∧
    (∀ v : Vector3, (v.roundToZero).2 = JSRet.self) ∧
    (∀ v : Vector3, (v.negate).2 = JSRet.self) ∧
    (∀ v t : Vector3, (v.cross t).2 = JSRet.self) ∧
    (∀ v a b : Vector3, (v.crossVectors a b).2 = JSRet.self) ∧
    (∀ v t : Vector3, (v.projectOnVector t).2 = JSRet.self) ∧
    (∀ v n : Vector3, (v.projectOnPlane n).2 = JSRet.undef) ∧
    (∀ v n : Vector3, (v.reflect n).2 = JSRet.undef) ∧
    (∀ (v : Vector3) (r p t : ℝ), (v.setFromSphericalCoords r p t).2 = JSRet.self) ∧
    (∀ (v : Vector3) (r p t : ℝ), (v.setFromSpherical r p t).2 = JSRet.self) ∧
    (∀ (v : Vector3) (r t y : ℝ), (v.setFromCylindricalCoords r t y).2 = JSRet.self) ∧
    (∀ (v : Vector3) (r t y : ℝ), (v.setFromCylindrical r t y).2 = JSRet.self) ∧
    (∀ (v : Vector3) (e : ℕ → ℝ), (v.setFromMatrixPosition e).2 = JSRet.self) ∧
    (∀ (v : Vector3) (a : ℕ → ℝ) (k : ℕ), (v.fromArray a k).2 = JSRet.self) ∧
    (∀ (v : Vector3) (e : ℕ → ℝ) (i : ℕ), (v.setFromMatrixColumn e i).2 = JSRet.self) ∧
    (∀ (v : Vector3) (e : ℕ → ℝ) (i : ℕ), (v.setFromMatrix3Column e i).2 = JSRet.self) ∧
    (∀ (v : Vector3) (e : ℕ → ℝ), (v.setFromMatrixScale e).2 = JSRet.self) ∧
    (∀ (v : Vector3) (a b c : ℝ), (v.setFromEuler a b c).2 = JSRet.self) ∧
    (∀ (v : Vector3) (a b c : ℝ), (v.setFromColor a b c).2 = JSRet.self) ∧
    (∀ (v : Vector3) (gX gY gZ : ℕ → ℝ) (i : ℕ),
      (v.fromBufferAttribute gX gY gZ i).2 = JSRet.self) ∧
    (∀ (v : Vector3) (a b c : ℝ), (v.random a b c).2 = JSRet.self) ∧
    (∀ (v : Vector3) (a b : ℝ), (v.randomDirection a b).2 = JSRet.self) ∧
    (∀ (v : Vector4) (x y z w : ℝ), (v.set x y z w).2 = JSRet.self) ∧
    (∀ (v : Vector4) (s : ℝ), (v.setScalar s).2 = JSRet.self) ∧
    (∀ (v : Vector4) (s : ℝ), (v.setX s).2 = JSRet.self) ∧
    (∀ (v : Vector4) (s : ℝ), (v.setY s).2 = JSRet.self) ∧
    (∀ (v : Vector4) (s : ℝ), (v.setZ s).2 = JSRet.self) ∧
    (∀ (v : Vector4) (s : ℝ), (v.setW s).2 = JSRet.self) ∧
    (∀ (v : Vector4) (i : ℕ) (s : ℝ) (res : Vector4 × JSRet),
      v.setComponent i s = .ok res → res.2 = JSRet.self) ∧
    (∀ (v : Vector4) (sx sy sz : ℝ) (sw : Option ℝ),
      (v.copy sx sy sz sw).2 = JSRet.self) ∧
    (∀ v t : Vector4, (v.add t).2 = JSRet.self) ∧
    (∀ (v : Vector4) (s : ℝ), (v.addScalar s).2 = JSRet.self) ∧
    (∀ v a b : Vector4, (v.addVectors a b).2 = JSRet.self) ∧
    (∀ (v t : Vector4) (s : ℝ), (v.addScaledVector t s).2 = JSRet.self) ∧
    (∀ v t : Vector4, (v.sub t).2 = JSRet.self) ∧
    (∀ (v : Vector4) (s : ℝ), (v.subScalar s).2 = JSRet.self) ∧
    (∀ v a b : Vector4, (v.subVectors a b).2 = JSRet.self) ∧
    (∀ v t : Vector4, (v.multiply t).2 = JSRet.self) ∧
    (∀ (v : Vector4) (s : ℝ), (v.multiplyScalar s).2 = JSRet.self) ∧
    (∀ v t : Vector4, (v.divide t).2 = JSRet.self) ∧
    (∀ (v : Vector4) (s : ℝ), (v.divideScalar s).2 = JSRet.self) ∧
    (∀ (v : Vector4) (e : ℕ → ℝ), (v.applyMatrix4 e).2 = JSRet.self) ∧
    (∀ (v : Vector4) (q : Quaternion), (v.setAxisAngleFromQuaternion q).2 = JSRet.self) ∧
    (∀ (v : Vector4) (te : ℕ → ℝ),
      (v.setAxisAngleFromRotationMatrix te).2 = JSRet.self) ∧
    (∀ v : Vector4, (v.normalize).2 = JSRet.self) ∧
    (∀ (v : Vector4) (l : ℝ), (v.setLength l).2 = JSRet.self) ∧
    (∀ (v t : Vector4) (a : ℝ), (v.lerp t a).2 = JSRet.self) ∧
    (∀ (v v1 v2 : Vector4) (a : ℝ), (v.lerpVectors v1 v2 a).2 = JSRet.self) ∧
    (∀ v mn mx : Vector4, (v.clamp mn mx).2 = JSRet.self) ∧
    (∀ (v : Vector4) (lo hi : ℝ), (v.clampScalar lo hi).2 = JSRet.self) ∧
    (∀ (v : Vector4) (lo hi : ℝ), (v.clampLength lo hi).2 = JSRet.self) ∧
    (∀ v : Vector4, (v.floor).2 = JSRet.self) ∧
    (∀ v : Vector4, (v.ceil).2 = JSRet.self) ∧
    (∀ v : Vector4, (v.round).2 = JSRet.self) ∧
    (∀ v : Vector4, (v.roundToZero).2 = JSRet.self) ∧
    (∀ v : Vector4, (v.negate).2 = JSRet.self) ∧
    (∀ (v : Vector4) (a : ℕ → ℝ) (k : ℕ), (v.fromArray a k).2 = JSRet.self) ∧
    (∀ (v : Vector4) (gX gY gZ gW : ℕ → ℝ) (i : ℕ),
      (v.fromBufferAttribute gX gY gZ gW i).2 = JSRet.self) ∧
    (∀ (v : Vector4) (a b c d : ℝ), (v.random a b c d).2 = JSRet.self) ∧
    (∀ (v : Vector2) (x y : ℝ), (v.set x y).2 = JSRet.self) ∧
    (∀ (v : Vector2) (s : ℝ), (v.setScalar s).2 = JSRet.self) ∧
    (∀ (v : Vector2) (s : ℝ), (v.setX s).2 = JSRet.self) ∧
    (∀ (v : Vector2) (s : ℝ), (v.setY s).2 = JSRet.self) ∧
    (∀ (v : Vector2) (i : ℕ) (s : ℝ) (res : Vector2 × JSRet),
      v.setComponent i s = .ok res → res.2 = JSRet.self) ∧
    (∀ v t : Vector2, (v.copy t).2 = JSRet.self) ∧
    (∀ v t : Vector2, (v.add t).2 = JSRet.self) ∧
    (∀ (v : Vector2) (s : ℝ), (v.addScalar s).2 = JSRet.self) ∧
    (∀ v a b : Vector2, (v.addVectors a b).2 = JSRet.self) ∧
    (∀ (v t : Vector2) (s : ℝ), (v.addScaledVector t s).2 = JSRet.self) ∧
    (∀ v t : Vector2, (v.sub t).2 = JSRet.self) ∧
    (∀ (v : Vector2) (s : ℝ), (v.subScalar s).2 = JSRet.self) ∧
    (∀ v a b : Vector2, (v.subVectors a b).2 = JSRet.self) ∧
    (∀ v t : Vector2, (v.multiply t).2 = JSRet.self) ∧
    (∀ (v : Vector2) (s : ℝ), (v.multiplyScalar s).2 = JSRet.self) ∧
    (∀ v t : Vector2, (v.divide t).2 = JSRet.self) ∧
    (∀ (v : Vector2) (s : ℝ), (v.divideScalar s).2 = JSRet.self) ∧
    (∀ (v : Vector2) (e : ℕ → ℝ), (v.applyMatrix3 e).2 = JSRet.self) ∧
    (∀ (v c : Vector2) (a : ℝ), (v.rotateAround c a).2 = JSRet.self) ∧
    (∀ v : Vector2, (v.normalize).2 = JSRet.self) ∧
    (∀ (v : Vector2) (l : ℝ), (v.setLength l).2 = JSRet.self) ∧
    (∀ v mn mx : Vector2, (v.clamp mn mx).2 = JSRet.self) ∧
    (∀ (v : Vector2) (lo hi : ℝ), (v.clampScalar lo hi).2 = JSRet.self) ∧
    (∀ (v : Vector2) (lo hi : ℝ), (v.clampLength lo hi).2 = JSRet.self) ∧
    (∀ v : Vector2, (v.floor).2 = JSRet.self) ∧
    (∀ v : Vector2, (v.ceil).2 = JSRet.self) ∧
    (∀ v : Vector2, (v.round).2 = JSRet.self) ∧
    (∀ v : Vector2, (v.roundToZero).2 = JSRet.self) ∧
    (∀ v : Vector2, (v.negate).2 = JSRet.self) ∧
    (∀ (v : Vector2) (a : ℕ → ℝ) (k : ℕ), (v.fromArray a k).2 = JSRet.self) ∧
    (∀ (v : Vector2) (gX gY : ℕ → ℝ) (i : ℕ),
      (v.fromBufferAttribute gX gY i).2 = JSRet.self) ∧
    (∀ (v : Vector2) (a b : ℝ), (v.random a b).2 = JSRet.self) := by
  repeat' apply And.intro
  all_goals intros
  all_goals
    first
      | rfl
      | (rename_i h
         first
           | (simp only [Vector3.setComponent] at h)
           | (simp only [Vector4.setComponent] at h)
           | (simp only [Vector2.setComponent] at h)
         split_ifs at h <;> (injection h with h2; rw [← h2]))
      | (simp only [Vector3.projectOnVector]; split <;> rfl)
      | (simp only [Vector4.setAxisAngleFromRotationMatrix]; split_ifs <;> rfl)

/-- C2 witness: a concrete in-range `setComponent` call, via
`C2_mutators_return_this`. -/
theorem C2_mutators_return_this_witness :
    (Vector3.create 1 2 3).setComponent 0 7 =
      Except.ok ((Vector3.create 7 2 3).markDirty, JSRet.self) ∧
    (((Vector3.create 7 2 3).markDirty, JSRet.self) : Vector3 × JSRet).2 = JSRet.self := by
  have hok : (Vector3.create 1 2 3).setComponent 0 7 =
      Except.ok ((Vector3.create 7 2 3).markDirty, JSRet.self) := rfl
  exact ⟨hok, C2_mutators_return_this.2.2.2.2.2.1 _ 0 7 _ hok⟩

/-- C1 counterexample: with an observer attached, `Vector3.projectOnPlane`
invokes it twice — once inside `sub` and once more through its trailing
explicit `#markDirty()` — refuting "invoked exactly once" as stated. -/
theorem C1_counterexample_projectOnPlane_notifies_twice :
    ¬ ∀ (v n : Vector3), v.hasObserver = true →
        ((v.projectOnPlane n).1).notified = v.notified + 1 := by
  intro h
  have hc := h ⟨1, 0, 0, false, true, 0⟩ ⟨1, 0, 0, false, false, 0⟩ rfl
  norm_num [Vector3.projectOnPlane, Vector3.sub, Vector3.markDirty,
    Vector3.notifyStep] at hc

/-- C1 (amended): after every mutating operation the dirty flag is true
and, if an observer is set, it has been invoked (synchronously, with the
vector itself as sole argument — `#markDirty` passes `this`) at least
once; single-step mutators invoke it exactly once, while operations that
are composed of other mutators or that call `#markDirty` again invoke it
once per underlying `#markDirty`: `applyNormalMatrix`, `project`,
`unproject`, `setLength`, `clampLength` and `reflect`/`projectOnPlane`
twice, `projectOnVector` twice on a non-degenerate target,
`setFromMatrixScale` four times, and `setAxisAngleFromRotationMatrix`
twice in its near-symmetric branches.  `Vector3.mutated r v k` states
"dirty is true and the observer was invoked exactly `k` times". -/
theorem C1_mutators_mark_dirty_and_notify :
    (∀ (v : Vector3) (x y : ℝ) (z : Option ℝ), Vector3.mutated (v.set x y z) v 1) ∧
    (∀ (v : Vector3) (s : ℝ), Vector3.mutated (v.setScalar s) v 1) ∧
    (∀ (v : Vector3) (s : ℝ), Vector3.mutated (v.setX s) v 1) ∧
    (∀ (v : Vector3) (s : ℝ), Vector3.mutated (v.setY s) v 1) ∧
    (∀ (v : Vector3) (s : ℝ), Vector3.mutated (v.setZ s) v 1) ∧
    (∀ (v : Vector3) (i : ℕ) (s : ℝ) (res : Vector3 × JSRet),
      v.setComponent i s = .ok res → Vector3.mutated res v 1) ∧
    (∀ v t : Vector3, Vector3.mutated (v.copy t) v 1) ∧
    (∀ v t : Vector3, Vector3.mutated (v.add t) v 1) ∧
    (∀ (v : Vector3) (s : ℝ), Vector3.mutated (v.addScalar s) v 1) ∧
    (∀ v a b : Vector3, Vector3.mutated (v.addVectors a b) v 1) ∧
    (∀ (v t : Vector3) (s : ℝ), Vector3.mutated (v.addScaledVector t s) v 1) ∧
    (∀ v t : Vector3, Vector3.mutated (v.sub t) v 1) ∧
    (∀ (v : Vector3) (s : ℝ), Vector3.mutated (v.subScalar s) v 1) ∧
    (∀ v a b : Vector3, Vector3.mutated (v.subVectors a b) v 1) ∧
    (∀ v t : Vector3, Vector3.mutated (v.multiply t) v 1) ∧
    (∀ (v : Vector3) (s : ℝ), Vector3.mutated (v.multiplyScalar s) v 1) ∧
    (∀ v a b : Vector3, Vector3.mutated (v.multiplyVectors a b) v 1) ∧
    (∀ v t : Vector3, Vector3.mutated (v.divide t) v 1) ∧
    (∀ (v : Vector3) (s : ℝ), Vector3.mutated (v.divideScalar s) v 1) ∧
    (∀ (v : Vector3) (q : Quaternion), Vector3.mutated (v.applyQuaternion q) v 1) ∧
    (∀ (v : Vector3) (e : ℕ → ℝ), Vector3.mutated (v.applyMatrix3 e) v 1) ∧
    (∀ (v : Vector3) (e : ℕ → ℝ), Vector3.mutated (v.applyNormalMatrix e) v 2) ∧
    (∀ (v : Vector3) (e : ℕ → ℝ), Vector3.mutated (v.applyMatrix4 e) v 1) ∧
    (∀ (v : Vector3) (e : ℕ → ℝ), Vector3.mutated (v.transformDirection e) v 1) ∧
    (∀ (v : Vector3) (e1 e2 : ℕ → ℝ), Vector3.mutated (v.project e1 e2) v 2) ∧
    (∀ (v : Vector3) (e1 e2 : ℕ → ℝ), Vector3.mutated (v.unproject e1 e2) v 2) ∧
    (∀ v : Vector3, Vector3.mutated (v.normalize) v 1) ∧
    (∀ (v : Vector3) (l : ℝ), Vector3.mutated (v.setLength l) v 2) ∧
    (∀ (v t : Vector3) (a : ℝ), Vector3.mutated (v.lerp t a) v 1) ∧
    (∀ (v v1 v2 : Vector3) (a : ℝ), Vector3.mutated (v.lerpVectors v1 v2 a) v 1) ∧
    (∀ v mn mx : Vector3, Vector3.mutated (v.clamp mn mx) v 1) ∧
    (∀ (v : Vector3) (lo hi : ℝ), Vector3.mutated (v.clampScalar lo hi) v 1) ∧
    (∀ (v : Vector3) (lo hi : ℝ), Vector3.mutated (v.clampLength lo hi) v 2) ∧
    (∀ v : Vector3, Vector3.mutated (v.floor) v 1) ∧
    (∀ v : Vector3, Vector3.mutated (v.ceil) v 1) ∧
    (∀ v : Vector3, Vector3.mutated (v.round) v 1) ∧
    (∀ v : Vector3, Vector3.mutated (v.roundToZero) v 1) ∧
    (∀ v : Vector3, Vector3.mutated (v.negate) v 1) ∧
    (∀ v t : Vector3, Vector3.mutated (v.cross t) v 1) ∧
    (∀ v a b : Vector3, Vector3.mutated (v.crossVectors a b) v 1) ∧
    (∀ v t : Vector3,
      Vector3.mutated (v.projectOnVector t) v (if t.lengthSq = 0 then 1 else 2)) ∧
    (∀ v n : Vector3, Vector3.mutated (v.projectOnPlane n) v 2) ∧
    (∀ v n : Vector3, Vector3.mutated (v.reflect n) v 2) ∧
    (∀ (v : Vector3) (r p t : ℝ), Vector3.mutated (v.setFromSphericalCoords r p t) v 1) ∧
    (∀ (v : Vector3) (r p t : ℝ), Vector3.mutated (v.setFromSpherical r p t) v 1) ∧
    (∀ (v : Vector3) (r t y : ℝ), Vector3.mutated (v.setFromCylindricalCoords r t y) v 1) ∧
    (∀ (v : Vector3) (r t y : ℝ), Vector3.mutated (v.setFromCylindrical r t y) v 1) ∧
    (∀ (v : Vector3) (e : ℕ → ℝ), Vector3.mutated (v.setFromMatrixPosition e) v 1) ∧
    (∀ (v : Vector3) (a : ℕ → ℝ) (k : ℕ), Vector3.mutated (v.fromArray a k) v 1) ∧
    (∀ (v : Vector3) (e : ℕ → ℝ) (i : ℕ), Vector3.mutated (v.setFromMatrixColumn e i) v 1) ∧
    (∀ (v : Vector3) (e : ℕ → ℝ) (i : ℕ), Vector3.mutated (v.setFromMatrix3Column e i) v 1) ∧
    (∀ (v : Vector3) (e : ℕ → ℝ), Vector3.mutated (v.setFromMatrixScale e) v 4) ∧
    (∀ (v : Vector3) (a b c : ℝ), Vector3.mutated (v.setFromEuler a b c) v 1) ∧
    (∀ (v : Vector3) (a b c : ℝ), Vector3.mutated (v.setFromColor a b c) v 1) ∧
    (∀ (v : Vector3) (gX gY gZ : ℕ → ℝ) (i : ℕ),
      Vector3.mutated (v.fromBufferAttribute gX gY gZ i) v 1) ∧
    (∀ (v : Vector3) (a b c : ℝ), Vector3.mutated (v.random a b c) v 1) ∧
    (∀ (v : Vector3) (a b : ℝ), Vector3.mutated (v.randomDirection a b) v 1) ∧
    (∀ (v : Vector4) (x y z w : ℝ), Vector4.mutated (v.set x y z w) v 1) ∧
    (∀ (v : Vector4) (s : ℝ), Vector4.mutated (v.setScalar s) v 1) ∧
    (∀ (v : Vector4) (s : ℝ), Vector4.mutated (v.setX s) v 1) ∧
    (∀ (v : Vector4) (s : ℝ), Vector4.mutated (v.setY s) v 1) ∧
    (∀ (v : Vector4) (s : ℝ), Vector4.mutated (v.setZ s) v 1) ∧
    (∀ (v : Vector4) (s : ℝ), Vector4.mutated (v.setW s) v 1) ∧
    (∀ (v : Vector4) (i : ℕ) (s : ℝ) (res : Vector4 × JSRet),
      v.setComponent i s = .ok res → Vector4.mutated res v 1) ∧
    (∀ (v : Vector4) (sx sy sz : ℝ) (sw : Option ℝ),
      Vector4.mutated (v.copy sx sy sz sw) v 1) ∧
    (∀ v t : Vector4, Vector4.mutated (v.add t) v 1) ∧
    (∀ (v : Vector4) (s : ℝ), Vector4.mutated (v.addScalar s) v 1) ∧
    (∀ v a b : Vector4, Vector4.mutated (v.addVectors a b) v 1) ∧
    (∀ (v t : Vector4) (s : ℝ), Vector4.mutated (v.addScaledVector t s) v 1) ∧
    (∀ v t : Vector4, Vector4.mutated (v.sub t) v 1) ∧
    (∀ (v : Vector4) (s : ℝ), Vector4.mutated (v.subScalar s) v 1) ∧
    (∀ v a b : Vector4, Vector4.mutated (v.subVectors a b) v 1) ∧
    (∀ v t : Vector4, Vector4.mutated (v.multiply t) v 1) ∧
    (∀ (v : Vector4) (s : ℝ), Vector4.mutated (v.multiplyScalar s) v 1) ∧
    (∀ v t : Vector4, Vector4.mutated (v.divide t) v 1) ∧
    (∀ (v : Vector4) (s : ℝ), Vector4.mutated (v.divideScalar s) v 1) ∧
    (∀ (v : Vector4) (e : ℕ → ℝ), Vector4.mutated (v.applyMatrix4 e) v 1) ∧
    (∀ (v : Vector4) (q : Quaternion),
      Vector4.mutated (v.setAxisAngleFromQuaternion q) v 1) ∧
    (∀ (v : Vector4) (te : ℕ → ℝ),
      Vector4.mutated (v.setAxisAngleFromRotationMatrix te) v
        (if |te 4 - te 1| < 0.01 ∧ |te 8 - te 2| < 0.01 ∧ |te 9 - te 6| < 0.01
          then 2 else 1)) ∧
    (∀ v : Vector4, Vector4.mutated (v.normalize) v 1) ∧
    (∀ (v : Vector4) (l : ℝ), Vector4.mutated (v.setLength l) v 2) ∧
    (∀ (v t : Vector4) (a : ℝ), Vector4.mutated (v.lerp t a) v 1) ∧
    (∀ (v v1 v2 : Vector4) (a : ℝ), Vector4.mutated (v.lerpVectors v1 v2 a) v 1) ∧
    (∀ v mn mx : Vector4, Vector4.mutated (v.clamp mn mx) v 1) ∧
    (∀ (v : Vector4) (lo hi : ℝ), Vector4.mutated (v.clampScalar lo hi) v 1) ∧
    (∀ (v : Vector4) (lo hi : ℝ), Vector4.mutated (v.clampLength lo hi) v 2) ∧
    (∀ v : Vector4, Vector4.mutated (v.floor) v 1) ∧
    (∀ v : Vector4, Vector4.mutated (v.ceil) v 1) ∧
    (∀ v : Vector4, Vector4.mutated (v.round) v 1) ∧
    (∀ v : Vector4, Vector4.mutated (v.roundToZero) v 1) ∧
    (∀ v : Vector4, Vector4.mutated (v.negate) v 1) ∧
    (∀ (v : Vector4) (a : ℕ → ℝ) (k : ℕ), Vector4.mutated (v.fromArray a k) v 1) ∧
    (∀ (v : Vector4) (gX gY gZ gW : ℕ → ℝ) (i : ℕ),
      Vector4.mutated (v.fromBufferAttribute gX gY gZ gW i) v 1) ∧
    (∀ (v : Vector4) (a b c d : ℝ), Vector4.mutated (v.random a b c d) v 1) ∧
    (∀ (v : Vector2) (x y : ℝ), Vector2.mutated (v.set x y) v 1) ∧
    (∀ (v : Vector2) (s : ℝ), Vector2.mutated (v.setScalar s) v 1) ∧
    (∀ (v : Vector2) (s : ℝ), Vector2.mutated (v.setX s) v 1) ∧
    (∀ (v : Vector2) (s : ℝ), Vector2.mutated (v.setY s) v 1) ∧
    (∀ (v : Vector2) (i : ℕ) (s : ℝ) (res : Vector2 × JSRet),
      v.setComponent i s = .ok res → Vector2.mutated res v 1) ∧
    (∀ v t : Vector2, Vector2.mutated (v.copy t) v 1) ∧
    (∀ v t : Vector2, Vector2.mutated (v.add t) v 1) ∧
    (∀ (v : Vector2) (s : ℝ), Vector2.mutated (v.addScalar s) v 1) ∧
    (∀ v a b : Vector2, Vector2.mutated (v.addVectors a b) v 1) ∧
    (∀ (v t : Vector2) (s : ℝ), Vector2.mutated (v.addScaledVector t s) v 1) ∧
    (∀ v t : Vector2, Vector2.mutated (v.sub t) v 1) ∧
    (∀ (v : Vector2) (s : ℝ), Vector2.mutated (v.subScalar s) v 1) ∧
    (∀ v a b : Vector2, Vector2.mutated (v.subVectors a b) v 1) ∧
    (∀ v t : Vector2, Vector2.mutated (v.multiply t) v 1) ∧
    (∀ (v : Vector2) (s : ℝ), Vector2.mutated (v.multiplyScalar s) v 1) ∧
    (∀ v t : Vector2, Vector2.mutated (v.divide t) v 1) ∧
    (∀ (v : Vector2) (s : ℝ), Vector2.mutated (v.divideScalar s) v 1) ∧
    (∀ (v : Vector2) (e : ℕ → ℝ), Vector2.mutated (v.applyMatrix3 e) v 1) ∧
    (∀ (v c : Vector2) (a : ℝ), Vector2.mutated (v.rotateAround c a) v 1) ∧
    (∀ v : Vector2, Vector2.mutated (v.normalize) v 1) ∧
    (∀ (v : Vector2) (l : ℝ), Vector2.mutated (v.setLength l) v 2) ∧
    (∀ v mn mx : Vector2, Vector2.mutated (v.clamp mn mx) v 1) ∧
    (∀ (v : Vector2) (lo hi : ℝ), Vector2.mutated (v.clampScalar lo hi) v 1) ∧
    (∀ (v : Vector2) (lo hi : ℝ), Vector2.mutated (v.clampLength lo hi) v 2) ∧
    (∀ v : Vector2, Vector2.mutated (v.floor) v 1) ∧
    (∀ v : Vector2, Vector2.mutated (v.ceil) v 1) ∧
    (∀ v : Vector2, Vector2.mutated (v.round) v 1) ∧
    (∀ v : Vector2, Vector2.mutated (v.roundToZero) v 1) ∧
    (∀ v : Vector2, Vector2.mutated (v.negate) v 1) ∧
    (∀ (v : Vector2) (a : ℕ → ℝ) (k : ℕ), Vector2.mutated (v.fromArray a k) v 1) ∧
    (∀ (v : Vector2) (gX gY : ℕ → ℝ) (i : ℕ),
      Vector2.mutated (v.fromBufferAttribute gX gY i) v 1) ∧
    (∀ (v : Vector2) (a b : ℝ), Vector2.mutated (v.random a b) v 1) := by
  repeat' apply And.intro
  all_goals intros
  all_goals
    first
      | (rename_i h
         first
           | (simp only [Vector3.setComponent] at h)
           | (simp only [Vector4.setComponent] at h)
           | (simp only [Vector2.setComponent] at h)
         split_ifs at h <;> (injection h with h2; rw [← h2]) <;>
           simp [Vector3.mutated, Vector4.mutated, Vector2.mutated,
             Vector3.markDirty, Vector4.markDirty, Vector2.markDirty,
             Vector3.notifyStep, Vector4.notifyStep, Vector2.notifyStep])
      | (simp [Vector3.mutated, Vector4.mutated, Vector2.mutated,
           Vector3.notifyStep, Vector4.notifyStep, Vector2.notifyStep,
           Vector3.markDirty, Vector4.markDirty, Vector2.markDirty,
           Vector3.set, Vector3.setScalar, Vector3.setX, Vector3.setY, Vector3.setZ,
           Vector3.copy, Vector3.add, Vector3.addScalar, Vector3.addVectors,
           Vector3.addScaledVector, Vector3.sub, Vector3.subScalar, Vector3.subVectors,
           Vector3.multiply, Vector3.multiplyScalar, Vector3.multiplyVectors,
           Vector3.divide, Vector3.divideScalar, Vector3.applyQuaternion,
           Vector3.applyMatrix3, Vector3.jsOr, Vector3.normalize,
           Vector3.applyNormalMatrix, Vector3.applyMatrix4, Vector3.transformDirection,
           Vector3.project, Vector3.unproject, Vector3.setLength, Vector3.lerp,
           Vector3.lerpVectors, Vector3.clamp, Vector3.clampScalar, Vector3.clampLength,
           Vector3.floor, Vector3.ceil, Vector3.round, Vector3.roundToZero,
           Vector3.negate, Vector3.crossVectors, Vector3.cross, Vector3.projectOnVector,
           Vector3.projectOnPlane, Vector3.reflect, Vector3.setFromSphericalCoords,
           Vector3.setFromSpherical, Vector3.setFromCylindricalCoords,
           Vector3.setFromCylindrical, Vector3.setFromMatrixPosition, Vector3.fromArray,
           Vector3.setFromMatrixColumn, Vector3.setFromMatrix3Column,
           Vector3.setFromMatrixScale, Vector3.setFromEuler, Vector3.setFromColor,
           Vector3.fromBufferAttribute, Vector3.random, Vector3.randomDirection,
           Vector3.lengthSq,
           Vector4.set, Vector4.setScalar, Vector4.setX, Vector4.setY, Vector4.setZ,
           Vector4.setW, Vector4.copy, Vector4.add, Vector4.addScalar,
           Vector4.addVectors, Vector4.addScaledVector, Vector4.sub, Vector4.subScalar,
           Vector4.subVectors, Vector4.multiply, Vector4.multiplyScalar,
           Vector4.divide, Vector4.divideScalar, Vector4.applyMatrix4,
           Vector4.setAxisAngleFromQuaternion, Vector4.setAxisAngleFromRotationMatrix,
           Vector4.normalize, Vector4.setLength, Vector4.lerp, Vector4.lerpVectors,
           Vector4.clamp, Vector4.clampScalar, Vector4.clampLength, Vector4.floor,
           Vector4.ceil, Vector4.round, Vector4.roundToZero, Vector4.negate,
           Vector4.fromArray, Vector4.fromBufferAttribute, Vector4.random,
           Vector2.set, Vector2.setScalar, Vector2.setX, Vector2.setY, Vector2.copy,
           Vector2.add, Vector2.addScalar, Vector2.addVectors, Vector2.addScaledVector,
           Vector2.sub, Vector2.subScalar, Vector2.subVectors, Vector2.multiply,
           Vector2.multiplyScalar, Vector2.divide, Vector2.divideScalar,
           Vector2.applyMatrix3, Vector2.rotateAround, Vector2.normalize,
           Vector2.setLength, Vector2.clamp, Vector2.clampScalar, Vector2.clampLength,
           Vector2.floor, Vector2.ceil, Vector2.round, Vector2.roundToZero,
           Vector2.negate, Vector2.fromArray, Vector2.fromBufferAttribute,
           Vector2.random] <;>
         first
           | omega
           | (split_ifs <;> omega)
           | (split_ifs <;> simp))

/-- C1 witness: a concrete in-range `setComponent` call on a vector with
an observer attached, via `C1_mutators_mark_dirty_and_notify`. -/
theorem C1_mutators_witness :
    (⟨1, 2, 3, false, true, 5⟩ : Vector3).setComponent 0 7 =
      Except.ok ((⟨7, 2, 3, false, true, 5⟩ : Vector3).markDirty, JSRet.self) ∧
    Vector3.mutated ((⟨7, 2, 3, false, true, 5⟩ : Vector3).markDirty, JSRet.self)
      (⟨1, 2, 3, false, true, 5⟩ : Vector3) 1 := by
  have hok : (⟨1, 2, 3, false, true, 5⟩ : Vector3).setComponent 0 7 =
      Except.ok ((⟨7, 2, 3, false, true, 5⟩ : Vector3).markDirty, JSRet.self) := rfl
  exact ⟨hok, C1_mutators_mark_dirty_and_notify.2.2.2.2.2.1 _ 0 7 _ hok⟩

/-- C3 counterexample: inside the near-symmetric branch, "trace near 3"
alone does not give the identity result: `nearSymMatrix` is symmetric
with trace exactly 3, yet its off-diagonal sum `m12 + m21 = 0.12` fails
the `epsilon2 = 0.1` sub-test, so the code takes the 180° branch and
sets the angle to π, not 0. -/
theorem C3_counterexample_trace_near_3_not_identity :
    ¬ ∀ (v : Vector4) (te : ℕ → ℝ),
        (|te 4 - te 1| < 0.01 ∧ |te 8 - te 2| < 0.01 ∧ |te 9 - te 6| < 0.01) →
        |te 0 + te 5 + te 10 - 3| < 0.1 →
        ((v.setAxisAngleFromRotationMatrix te).1.x = 1 ∧
         (v.setAxisAngleFromRotationMatrix te).1.y = 0 ∧
         (v.setAxisAngleFromRotationMatrix te).1.z = 0 ∧
         (v.setAxisAngleFromRotationMatrix te).1.w = 0) := by
  intro h
  have hc := h (Vector4.create 0 0 0 1) nearSymMatrix
      (by norm_num [nearSymMatrix]) (by norm_num [nearSymMatrix])
  have hw : (((Vector4.create 0 0 0 1).setAxisAngleFromRotationMatrix
      nearSymMatrix).1).w = Real.pi := by
    norm_num [Vector4.setAxisAngleFromRotationMatrix, Vector4.set,
      Vector4.markDirty, nearSymMatrix, abs_lt]
  exact Real.pi_ne_zero (hw ▸ hc.2.2.2)

/-- C3 (amended): `setAxisAngleFromRotationMatrix` first tests each
off-diagonal pair difference against epsilon 0.01 (near-symmetric);
within that branch the identity result `(1, 0, 0)` with angle 0 is
produced only when additionally each off-diagonal pair *sum* and the
distance of the trace from 3 are below epsilon2 = 0.1; otherwise the
angle is π and the axis comes from the dominant diagonal term (the
strict-comparison cascade over the three `(m_ii + 1)/2` values); outside
the symmetric branch the axis is the skew-symmetric part divided by its
magnitude `s` (with 1 substituted when `|s| < 0.001`) and the angle is
`acos((trace − 1)/2)`. -/
theorem C3_setAxisAngleFromRotationMatrix_branches :
    ∀ (v : Vector4) (te : ℕ → ℝ),
      ((|te 4 - te 1| < 0.01 ∧ |te 8 - te 2| < 0.01 ∧ |te 9 - te 6| < 0.01) →
        ((|te 4 + te 1| < 0.1 ∧ |te 8 + te 2| < 0.1 ∧ |te 9 + te 6| < 0.1 ∧
            |te 0 + te 5 + te 10 - 3| < 0.1) →
          (v.setAxisAngleFromRotationMatrix te).1.x = 1 ∧
          (v.setAxisAngleFromRotationMatrix te).1.y = 0 ∧
          (v.setAxisAngleFromRotationMatrix te).1.z = 0 ∧
          (v.setAxisAngleFromRotationMatrix te).1.w = 0) ∧
        (¬(|te 4 + te 1| < 0.1 ∧ |te 8 + te 2| < 0.1 ∧ |te 9 + te 6| < 0.1 ∧
            |te 0 + te 5 + te 10 - 3| < 0.1) →
          (v.setAxisAngleFromRotationMatrix te).1.w = Real.pi ∧
          (((te 0 + 1) / 2 > (te 5 + 1) / 2 ∧ (te 0 + 1) / 2 > (te 10 + 1) / 2) →
            (v.setAxisAngleFromRotationMatrix te).1.x =
              Real.sqrt ((te 0 + 1) / 2) ∧
            (v.setAxisAngleFromRotationMatrix te).1.y =
              (te 4 + te 1) / 4 / Real.sqrt ((te 0 + 1) / 2) ∧
            (v.setAxisAngleFromRotationMatrix te).1.z =
              (te 8 + te 2) / 4 / Real.sqrt ((te 0 + 1) / 2)) ∧
          (¬((te 0 + 1) / 2 > (te 5 + 1) / 2 ∧ (te 0 + 1) / 2 > (te 10 + 1) / 2) →
            ((te 5 + 1) / 2 > (te 10 + 1) / 2 →
              (v.setAxisAngleFromRotationMatrix te).1.x =
                (te 4 + te 1) / 4 / Real.sqrt ((te 5 + 1) / 2) ∧
              (v.setAxisAngleFromRotationMatrix te).1.y =
                Real.sqrt ((te 5 + 1) / 2) ∧
              (v.setAxisAngleFromRotationMatrix te).1.z =
                (te 9 + te 6) / 4 / Real.sqrt ((te 5 + 1) / 2)) ∧
            (¬((te 5 + 1) / 2 > (te 10 + 1) / 2) →
              (v.setAxisAngleFromRotationMatrix te).1.x =
                (te 8 + te 2) / 4 / Real.sqrt ((te 10 + 1) / 2) ∧
              (v.setAxisAngleFromRotationMatrix te).1.y =
                (te 9 + te 6) / 4 / Real.sqrt ((te 10 + 1) / 2) ∧
              (v.setAxisAngleFromRotationMatrix te).1.z =
                Real.sqrt ((te 10 + 1) / 2))))) ∧
      (¬(|te 4 - te 1| < 0.01 ∧ |te 8 - te 2| < 0.01 ∧ |te 9 - te 6| < 0.01) →
        (v.setAxisAngleFromRotationMatrix te).1.w =
          Real.arccos ((te 0 + te 5 + te 10 - 1) / 2) ∧
        (|Real.sqrt ((te 6 - te 9) ^ 2 + (te 8 - te 2) ^ 2 + (te 1 - te 4) ^ 2)|
            < 0.001 →
          (v.setAxisAngleFromRotationMatrix te).1.x = te 6 - te 9 ∧
          (v.setAxisAngleFromRotationMatrix te).1.y = te 8 - te 2 ∧
          (v.setAxisAngleFromRotationMatrix te).1.z = te 1 - te 4) ∧
        (¬|Real.sqrt ((te 6 - te 9) ^ 2 + (te 8 - te 2) ^ 2 + (te 1 - te 4) ^ 2)|
            < 0.001 →
          (v.setAxisAngleFromRotationMatrix te).1.x =
            (te 6 - te 9) /
              Real.sqrt ((te 6 - te 9) ^ 2 + (te 8 - te 2) ^ 2 + (te 1 - te 4) ^ 2) ∧
          (v.setAxisAngleFromRotationMatrix te).1.y =
            (te 8 - te 2) /
              Real.sqrt ((te 6 - te 9) ^ 2 + (te 8 - te 2) ^ 2 + (te 1 - te 4) ^ 2) ∧
          (v.setAxisAngleFromRotationMatrix te).1.z =
            (te 1 - te 4) /
              Real.sqrt ((te 6 - te 9) ^ 2 + (te 8 - te 2) ^ 2 + (te 1 - te 4) ^ 2))) := by
  intro v te
  constructor
  · intro hsym
    constructor
    · intro hid
      simp [Vector4.setAxisAngleFromRotationMatrix, Vector4.set, Vector4.markDirty,
        hsym.1, hsym.2.1, hsym.2.2, hid.1, hid.2.1, hid.2.2.1, hid.2.2.2]
    · intro hnid
      refine ⟨?_, ?_, ?_⟩
      · simp [Vector4.setAxisAngleFromRotationMatrix, Vector4.set, Vector4.markDirty,
          hsym.1, hsym.2.1, hsym.2.2, hnid]
      · intro hxx
        simp [Vector4.setAxisAngleFromRotationMatrix, Vector4.set, Vector4.markDirty,
          hsym.1, hsym.2.1, hsym.2.2, hnid, hxx.1, hxx.2]
      · intro hnxx
        constructor
        · intro hyy
          simp [Vector4.setAxisAngleFromRotationMatrix, Vector4.set, Vector4.markDirty,
            hsym.1, hsym.2.1, hsym.2.2, hnid, hnxx, hyy]
        · intro hnyy
          simp [Vector4.setAxisAngleFromRotationMatrix, Vector4.set, Vector4.markDirty,
            hsym.1, hsym.2.1, hsym.2.2, hnid, hnxx, hnyy]
  · intro hnsym
    refine ⟨?_, ?_, ?_⟩
    · simp [Vector4.setAxisAngleFromRotationMatrix, Vector4.markDirty, hnsym]
    · intro hs
      simp [Vector4.setAxisAngleFromRotationMatrix, Vector4.markDirty, hnsym, hs]
    · intro hns
      simp [Vector4.setAxisAngleFromRotationMatrix, Vector4.markDirty, hnsym, hns]

/-- C3 witness: all three top-level branches at concrete rotation
matrices — the identity matrix (identity branch), `diag(1, -1, -1)`
(180° branch, dominant `xx` term), and the 90° z-rotation (skew branch,
`s = 2`) — each via `C3_setAxisAngleFromRotationMatrix_branches`. -/
theorem C3_setAxisAngleFromRotationMatrix_witness :
    (((Vector4.create 0 0 0 1).setAxisAngleFromRotationMatrix idMatrix).1.x = 1 ∧
     ((Vector4.create 0 0 0 1).setAxisAngleFromRotationMatrix idMatrix).1.w = 0) ∧
    (((Vector4.create 0 0 0 1).setAxisAngleFromRotationMatrix rot180xMatrix).1.w =
        Real.pi ∧
     ((Vector4.create 0 0 0 1).setAxisAngleFromRotationMatrix rot180xMatrix).1.x =
        Real.sqrt ((rot180xMatrix 0 + 1) / 2)) ∧
    ((Vector4.create 0 0 0 1).setAxisAngleFromRotationMatrix rotZ90Matrix).1.w =
      Real.arccos ((rotZ90Matrix 0 + rotZ90Matrix 5 + rotZ90Matrix 10 - 1) / 2) := by
  have hid := (C3_setAxisAngleFromRotationMatrix_branches
      (Vector4.create 0 0 0 1) idMatrix).1
      (by norm_num [idMatrix]) |>.1 (by norm_num [idMatrix])
  have h180 := (C3_setAxisAngleFromRotationMatrix_branches
      (Vector4.create 0 0 0 1) rot180xMatrix).1
      (by norm_num [rot180xMatrix]) |>.2 (by norm_num [rot180xMatrix, abs_lt])
  have h180x := h180.2.1 (by norm_num [rot180xMatrix])
  have hskew := (C3_setAxisAngleFromRotationMatrix_branches
      (Vector4.create 0 0 0 1) rotZ90Matrix).2
      (by norm_num [rotZ90Matrix, abs_lt])
  exact ⟨⟨hid.1, hid.2.2.2⟩, ⟨h180.1, h180x.1⟩, hskew.1⟩

end DSRT
